import Mathlib

/-!
Verification of the BSE bank-statement extractor.

The Python source (src/main.py, src/src/account_statement.py,
src/src/transactions.py, src/src/helper_functions.py, src/src/constants.py)
is shallowly embedded below.  Python floats are modelled as exact decimal
arithmetic over `ℚ` (the spec types amounts as `Decimal`); Python list
indexing, `int(...)`, `float(...)` and dictionary lookups are modelled in
`Except PyErr` so that the exceptions the source can raise are explicit
values.
-/

unseal Rat.sub Rat.add Rat.mul Rat.inv

/-- Python exception classes that the embedded code can raise. -/
inductive PyErr : Type where
  | indexError : PyErr
  | valueError : PyErr
  | typeError : PyErr
  | attributeError : PyErr
deriving DecidableEq

/-- `true` iff an `Except` computation finished without raising. -/
def Except.isOkB {ε α : Type} : Except ε α → Bool
  | .ok _ => true
  | .error _ => false

/-- The non-breaking-space character `"\xa0"` appearing in bank PDF amounts. -/
def nbspChar : Char := Char.ofNat 160

/-- Whitespace as stripped by Python `str.strip()` (ASCII whitespace plus
the non-breaking space and vertical tab / form feed). -/
def isPyWhitespace (c : Char) : Bool :=
  c.isWhitespace || c = nbspChar || c = Char.ofNat 11 || c = Char.ofNat 12

/-- Python `str.strip()` on the character list. -/
def pyStripL (cs : List Char) : List Char :=
  ((cs.dropWhile isPyWhitespace).reverse.dropWhile isPyWhitespace).reverse

/-- Python `str.strip()`. -/
def pyStrip (s : String) : String := ⟨pyStripL s.data⟩

/-- `true` iff `pat` begins `cs` (character-for-character). -/
def startsWithL : List Char → List Char → Bool
  | [], _ => true
  | _ :: _, [] => false
  | p :: ps, c :: cs => p = c && startsWithL ps cs

/-- `true` iff `pat` occurs contiguously somewhere in `cs`:
the Python substring test `pat in s`. -/
def containsSubL (pat : List Char) : List Char → Bool
  | [] => pat.isEmpty
  | c :: cs => startsWithL pat (c :: cs) || containsSubL pat cs

/-- Python `needle in hay` on strings. -/
def strContains (hay needle : String) : Bool := containsSubL needle.data hay.data

/-- Python `s.replace(old, new)` (all non-overlapping occurrences, left to
right) on character lists; `old` is assumed non-empty, as everywhere in the
source.  Fuel-based recursion so the kernel can evaluate it. -/
def replaceAllGo (pat repl : List Char) : ℕ → List Char → List Char
  | 0, cs => cs
  | _ + 1, [] => []
  | fuel + 1, c :: cs =>
    if startsWithL pat (c :: cs) ∧ pat ≠ [] then
      repl ++ replaceAllGo pat repl fuel ((c :: cs).drop pat.length)
    else
      c :: replaceAllGo pat repl fuel cs

/-- Entry point of `replaceAllGo` with enough fuel (`cs.length` suffices:
each step consumes at least one character of a non-empty pattern). -/
def replaceAllL (pat repl cs : List Char) : List Char :=
  replaceAllGo pat repl cs.length cs

/-- Python `s.replace(old, new)`. -/
def pyReplace (s old new : String) : String := ⟨replaceAllL old.data new.data s.data⟩

/-- Split a character list at every occurrence of `sep`, keeping empty
fields; always yields at least one field (Python `str.split(sep)` with a
one-character separator). -/
def splitOnCharL (sep : Char) : List Char → List (List Char)
  | [] => [[]]
  | c :: cs =>
    if c = sep then [] :: splitOnCharL sep cs
    else
      match splitOnCharL sep cs with
      | [] => [[c]]
      | f :: r => (c :: f) :: r

/-- Python `s.split(sep)` for a one-character separator. -/
def pySplitChar (sep : Char) (s : String) : List String :=
  (splitOnCharL sep s.data).map (fun l => ⟨l⟩)

/-- Python `s.split(" ")` (keeps empty fields, always at least one field). -/
def pySplitSpace (s : String) : List String := pySplitChar ' ' s

/-- Python `lst[-1]` on a non-empty list (as produced by `str.split`,
which never returns an empty list). -/
def pyLast (l : List String) : String := l.getLastD ""

/-- Python `str.lower()` (ASCII range; the only strings lowered by the
source are ASCII). -/
def pyLower (s : String) : String :=
  ⟨s.data.map (fun c => if 'A' ≤ c ∧ c ≤ 'Z' then Char.ofNat (c.toNat + 32) else c)⟩

/-- Python string slice `s[-4:]` (whole string when shorter than 4). -/
def takeRight4 (s : String) : String := ⟨s.data.drop (s.data.length - 4)⟩

/-- Python list indexing `l[i]` with `int` index: negative indices count
from the end, out-of-range raises `IndexError`. -/
def pyIdx {α : Type} (l : List α) (i : Int) : Except PyErr α :=
  if i ≥ 0 then
    match l.get? i.toNat with
    | some x => .ok x
    | none => .error .indexError
  else
    match l.get? (l.length - (-i).toNat) with
    | some x => if (-i).toNat ≤ l.length then .ok x else .error .indexError
    | none => .error .indexError

/-- Numeric value of a digit-character list read left to right
(`digitsVal "407".data = 407`). -/
def digitsVal (ds : List Char) : ℕ := ds.foldl (fun n c => 10 * n + (c.toNat - 48)) 0

/-- Python `int(text)`: strip whitespace, optional sign, then a non-empty
run of digits; anything else raises `ValueError`. -/
def pyInt (s : String) : Except PyErr Int :=
  let cs := pyStripL s.data
  let (sgn, ds) : Int × List Char :=
    match cs with
    | '-' :: r => (-1, r)
    | '+' :: r => (1, r)
    | r => (1, r)
  if ds ≠ [] ∧ ds.all Char.isDigit then .ok (sgn * digitsVal ds)
  else .error .valueError

/-- Python `float(text)` on decimal literals (the only shapes reachable in
this program), idealized over `ℚ`: strip whitespace, optional sign, digits
with at most one decimal dot. Returns `none` where Python raises
`ValueError`. -/
def pyFloatQ (s : String) : Option ℚ :=
  let cs := pyStripL s.data
  let sgn : ℚ := if cs.headD ' ' = '-' then -1 else 1
  let r : List Char :=
    if cs.headD ' ' = '-' ∨ cs.headD ' ' = '+' then cs.tail else cs
  let ip := r.takeWhile (fun c => c ≠ '.')
  match r.dropWhile (fun c => c ≠ '.') with
  | [] =>
    if ip ≠ [] ∧ ip.all Char.isDigit then some (sgn * digitsVal ip) else none
  | _ :: fp =>
    if (ip ≠ [] ∨ fp ≠ []) ∧ ip.all Char.isDigit ∧ fp.all Char.isDigit then
      some (sgn * ((digitsVal ip : ℚ) + (digitsVal fp : ℚ) / 10 ^ fp.length))
    else none

/-- Floor of a rational, computed by floor division of numerator by
denominator. -/
def floorQ (q : ℚ) : ℤ := q.num.fdiv q.den

/-- Python `round(x, 2)` idealized over `ℚ`: round to 2 decimal places,
ties to even (banker's rounding). -/
def round2 (q : ℚ) : ℚ :=
  let x := q * 100
  let f : ℤ := floorQ x
  let r := x - f
  let n : ℤ :=
    if r < 1 / 2 then f
    else if r > 1 / 2 then f + 1
    else if f % 2 = 0 then f else f + 1
  (n : ℚ) / 100

/-! ## src/src/helper_functions.py -/

/-- `pdf_amount_to_float(amount_text)`: remove spaces and non-breaking
spaces, turn the comma decimal separator into a dot, convert, round to
2 decimal places.  The single-character `str.replace` calls are modelled
as a filter and a map over the characters; a failing conversion is
Python's `ValueError`. -/
def pdf_amount_to_float (s : String) : Except PyErr ℚ :=
  let cleaned : List Char :=
    ((s.data.filter (fun c => ¬(c = ' ' ∨ c = nbspChar))).map
      (fun c => if c = ',' then '.' else c))
  match pyFloatQ ⟨cleaned⟩ with
  | some q => .ok (round2 q)
  | none => .error .valueError

/-- `get_amount_line(lines, search_from_line_index)`: scan
`lines[search_from_line_index:]` for the first line that contains `-` or
`+` or equals `"0.00"` and whose text is all digits once sign, spaces,
non-breaking spaces, dots and commas are removed; return that line and its
index relative to the start of the scan. -/
def get_amount_line (lines : List String) (searchFrom : ℕ) : Option (String × ℕ) :=
  go (lines.drop searchFrom) 0
where
  go : List String → ℕ → Option (String × ℕ)
    | [], _ => none
    | line :: rest, i =>
      if strContains line "-" || strContains line "+" || line = "0.00" then
        let cleaned : List Char :=
        line.data.filter (fun c =>
          ¬(c = '+' ∨ c = '-' ∨ c = ' ' ∨ c = nbspChar ∨ c = '.' ∨ c = ','))
        if cleaned ≠ [] ∧ cleaned.all Char.isDigit then some (line, i)
        else go rest (i + 1)
      else go rest (i + 1)

/-- `true` iff the regex `\d{4}/\d{4}` matches at the head of `cs`. -/
def acctPatAt (cs : List Char) : Bool :=
  match cs with
  | a :: b :: c :: d :: s :: e :: f :: g :: h :: _ =>
    a.isDigit && b.isDigit && c.isDigit && d.isDigit && s = '/' &&
    e.isDigit && f.isDigit && g.isDigit && h.isDigit
  | _ => false

/-- `true` iff the regex `\d{4}/\d{4}` matches anywhere in `cs`. -/
def hasAcctPat : List Char → Bool
  | [] => false
  | c :: cs => acctPatAt (c :: cs) || hasAcctPat cs

/-- `get_account_nr_line(lines, search_from_line_index)`: first line from
the given index matching `\d{4}/\d{4}`, stripped, with its relative
index. -/
def get_account_nr_line (lines : List String) (searchFrom : ℕ) :
    Option (String × ℕ) :=
  go (lines.drop searchFrom) 0
where
  go : List String → ℕ → Option (String × ℕ)
    | [], _ => none
    | line :: rest, i =>
      if hasAcctPat line.data then some (pyStrip line, i)
      else go rest (i + 1)

/-- `true` for characters the regex `\b` treats as word characters. -/
def isWordChar (c : Char) : Bool := c.isAlphanum || c = '_'

/-- The regex `\b\d{2}\.\d{2}\.\d{4}\b` matched at the head of `cs`
(`prev` is the character just before, for the left word boundary);
returns the matched text. -/
def dateAt (prev : Option Char) (cs : List Char) : Option (List Char) :=
  match cs with
  | d1 :: d2 :: c1 :: m1 :: m2 :: c2 :: y1 :: y2 :: y3 :: y4 :: rest =>
    if d1.isDigit && d2.isDigit && c1 = '.' && m1.isDigit && m2.isDigit &&
       c2 = '.' && y1.isDigit && y2.isDigit && y3.isDigit && y4.isDigit &&
       (match prev with | none => true | some p => ¬isWordChar p) &&
       (match rest.head? with | none => true | some n => ¬isWordChar n) then
      some [d1, d2, '.', m1, m2, '.', y1, y2, y3, y4]
    else none
  | _ => none

/-- Left-to-right scan for the first `\b\d{2}\.\d{2}\.\d{4}\b` match. -/
def findDate (prev : Option Char) : List Char → Option String
  | [] => none
  | c :: cs =>
    match dateAt prev (c :: cs) with
    | some m => some ⟨m⟩
    | none => findDate (some c) cs

/-- `text_contains_date(text)`: first `dd.mm.yyyy` match in the line, or
`none`. -/
def text_contains_date (s : String) : Option String := findDate none s.data

/-- Number of days of a month, with the Gregorian leap rule
(as validated by `datetime.strptime`). -/
def daysInMonth (y m : ℕ) : ℕ :=
  if m = 2 then
    if y % 4 = 0 ∧ (y % 100 ≠ 0 ∨ y % 400 = 0) then 29 else 28
  else if m = 4 ∨ m = 6 ∨ m = 9 ∨ m = 11 then 30
  else 31

/-- `datetime.strptime(text, "%d.%m.%Y")`, as `(year, month, day)`:
three dot-separated digit fields with calendar validation. -/
def parseDMY (s : String) : Option (ℕ × ℕ × ℕ) :=
  match pySplitChar '.' s with
  | [ds, ms, ys] =>
    if ds.data ≠ [] ∧ ds.data.all Char.isDigit ∧ ds.data.length ≤ 2 ∧
       ms.data ≠ [] ∧ ms.data.all Char.isDigit ∧ ms.data.length ≤ 2 ∧
       ys.data ≠ [] ∧ ys.data.all Char.isDigit ∧ ys.data.length ≤ 4 then
      let d := digitsVal ds.data
      let m := digitsVal ms.data
      let y := digitsVal ys.data
      if 1 ≤ m ∧ m ≤ 12 ∧ 1 ≤ d ∧ d ≤ daysInMonth y m ∧ 1 ≤ y then
        some (y, m, d)
      else none
    else none
  | _ => none

/-- Parse of the Revolut timestamp `YYYY-MM-DD HH:MM:SS` is modelled by
splitting off the date part; `get_date_from_string` reformats it as
`dd.mm.yyyy` and raises `ValueError` when the shape does not fit. -/
def get_date_from_string (s : String) : Except PyErr String :=
  match pySplitChar ' ' s with
  | [datePart, timePart] =>
    match pySplitChar '-' datePart, pySplitChar ':' timePart with
    | [ys, ms, ds], [hs, mins, secs] =>
      if ys.data.length = 4 ∧ ys.data.all Char.isDigit ∧
         ms.data.length = 2 ∧ ms.data.all Char.isDigit ∧
         ds.data.length = 2 ∧ ds.data.all Char.isDigit ∧
         hs.data.all Char.isDigit ∧ hs.data ≠ [] ∧
         mins.data.all Char.isDigit ∧ mins.data ≠ [] ∧
         secs.data.all Char.isDigit ∧ secs.data ≠ [] ∧
         1 ≤ digitsVal ms.data ∧ digitsVal ms.data ≤ 12 ∧
         1 ≤ digitsVal ds.data ∧
         digitsVal ds.data ≤ daysInMonth (digitsVal ys.data) (digitsVal ms.data) ∧
         digitsVal hs.data ≤ 23 ∧ digitsVal mins.data ≤ 59 ∧
         digitsVal secs.data ≤ 59 then
        .ok (ds ++ "." ++ ms ++ "." ++ ys)
      else .error .valueError
    | _, _ => .error .valueError
  | _ => .error .valueError

/-! ## src/src/transactions.py — data model -/

/-- The transaction kinds (the dataclass hierarchy, as tagged variants). -/
inductive TxKind : Type where
  | incomingPayment
  | outgoingPayment
  | outgoingPaymentPeriodic
  | cardPaymentDebit
  | cardPaymentIncoming
  | cardAtmCashOut
  | cardAtmDeposit
  | bankPayedService
  | interestPositive
  | taxInterest
  | electronicBankingTransfer
  | directDebit
deriving DecidableEq

/-- `type(t).__name__` for each kind. -/
def TxKind.pyName : TxKind → String
  | .incomingPayment => "IncomingPayment"
  | .outgoingPayment => "OutgoingPayment"
  | .outgoingPaymentPeriodic => "OutgoingPaymentPeriodic"
  | .cardPaymentDebit => "CardPaymentDebit"
  | .cardPaymentIncoming => "CardPaymentIncoming"
  | .cardAtmCashOut => "CardAtmCashOut"
  | .cardAtmDeposit => "CardAtmDeposit"
  | .bankPayedService => "BankPayedService"
  | .interestPositive => "InterestPositive"
  | .taxInterest => "TaxInterest"
  | .electronicBankingTransfer => "ElectronicBankingTransfer"
  | .directDebit => "DirectDebit"

/-- One `Transaction` dataclass instance (all kinds merged into one record,
with a `kind` discriminant; kind-specific fields keep their dataclass
defaults).  `year` is a string: the source stores the year sliced out of
the statement text. -/
structure Transaction : Type where
  kind : TxKind
  statement_account : String
  parent_statement : Option String := none
  transaction_id : ℕ := 0
  year : Option String := none
  account_from : Option String := none
  amount : ℚ := 0
  date_booked : Option String := none
  account_to : Option String := none
  currency : String := "CZK"
  account_from_name : Option String := none
  sender_note : Option String := none
  variable_symbol : Option Int := none
  constant_symbol : Option Int := none
  specific_symbol : Option Int := none
  all_transaction_lines_text : String := ""
  user_description : String := ""
  user_category : String := ""
  payment_date : Option String := none
  card_identifier : Option String := none
  vendor_text : Option String := none
  card_owner : Option String := none
  our_bank_atm : Bool := true
  cash_out_date : String := ""
  deposit_date : String := ""
  service_type : Option String := none
deriving DecidableEq

/-- `CardPaymentDebit.get_card_owner`: static lookup of the card owner by
the 4-digit card identifier. -/
def get_card_owner (card_identifier : Option String) : String :=
  match card_identifier with
  | some "7148" => "Ondra, ČS, VISA"
  | some "5567" => "Ondra, ČSOB, MC"
  | some "1563" => "Ondra, ČSOB, MC"
  | some "9448" => "Ondra, REVOLUT, MC"
  | some "0119" => "Mája, ČS, VISA"
  | _ => "Unknown card"

/-- `text_identifiers` of each kind: the per-bank marker substrings.
Every kind's dictionary carries exactly the keys `"cs"` and `"csob"`. -/
def text_identifiers (k : TxKind) (bank : String) : List String :=
  match k, bank with
  | .incomingPayment, "cs" => ["Příchozí úhrada", "Zahraniční příchozí úhrada"]
  | .incomingPayment, "csob" => ["Příchozí úhrada"]
  | .outgoingPayment, "csob" => ["Odchozí úhrada"]
  | .outgoingPayment, "cs" => ["Tuzemská odchozí úhrada"]
  | .outgoingPaymentPeriodic, "cs" => ["Trvalý příkaz"]
  | .outgoingPaymentPeriodic, "csob" => ["Trvalý příkaz"]
  | .cardPaymentDebit, "csob" => ["Transakce platební kartou"]
  | .cardPaymentDebit, "cs" => ["Platba kartou"]
  | .cardPaymentIncoming, "csob" => ["Příchozí úhrada kartou"]
  | .cardPaymentIncoming, "cs" => ["Vratka platby kartou"]
  | .cardAtmCashOut, "cs" => ["Výběr hotovosti z bankomatu"]
  | .cardAtmCashOut, "csob" => ["PLACEHOLDER"]
  | .cardAtmDeposit, "cs" => ["Vklad hotovosti přes bankomat"]
  | .cardAtmDeposit, "csob" => ["PLACEHOLDER"]
  | .bankPayedService, "cs" => ["Ceny za služby"]
  | .bankPayedService, "csob" => ["Poplatek-platební karta"]
  | .interestPositive, "cs" => ["Kreditní úrok"]
  | .interestPositive, "csob" => ["Zúčtování kladných úroků"]
  | .taxInterest, "cs" => ["Daň z úroku"]
  | .taxInterest, "csob" => ["PLACEHOLDER"]
  | .electronicBankingTransfer, "cs" => ["PLACEHOLDER"]
  | .electronicBankingTransfer, "csob" => ["Bezhotovostní převod EB"]
  | .directDebit, "cs" => ["Inkaso"]
  | .directDebit, "csob" => ["Inkaso"]
  | _, _ => []

/-- The date line of a transaction: `text_contains_date` on the marker
line, else the preceding line stripped (CS), with the statement year
appended for CSOB (whose short dates omit it). -/
def dateOfMarker (bank : String) (year : String) (i : ℕ) (page : List String) :
    Except PyErr String := do
  let markerLine ← pyIdx page i
  match text_contains_date markerLine with
  | some d => pure d
  | none =>
    let prevLine ← pyIdx page ((i : Int) - 1)
    if bank = "csob" then pure (pyStrip prevLine ++ year)
    else pure (pyStrip prevLine)

/-- The CS pattern `amount_line = get_amount_line(lines, i)[0]` followed by
`pdf_amount_to_float(amount_line.strip())`: a failed search leaves `None`,
whose `.strip()` raises `AttributeError`. -/
def amountFromSearch (page : List String) (i : ℕ) : Except PyErr ℚ :=
  match get_amount_line page i with
  | none => .error .attributeError
  | some (l, _) => pdf_amount_to_float (pyStrip l)

/-- The CSOB pattern `acct, idx = get_account_nr_line(lines, i)` followed by
`amount_line = lines[i + idx - 2]`: a failed search leaves `idx = None` and
the index arithmetic raises `TypeError`. -/
def csobAcctAmount (page : List String) (i : ℕ) : Except PyErr (String × ℚ) := do
  match get_account_nr_line page i with
  | none => .error .typeError
  | some (acct, idx) =>
    let al ← pyIdx page ((i : Int) + idx - 2)
    let amt ← pdf_amount_to_float (pyStrip al)
    pure (acct, amt)

/-! ### the per-kind `create` extraction rules -/

/-- `IncomingPayment.create`. -/
def IncomingPayment.create (bank year statement_account account_to : String)
    (line_index : ℕ) (extracted_text_lines : List String) :
    Except PyErr (Option Transaction) :=
  if bank = "cs" then do
    let date ← dateOfMarker bank year line_index extracted_text_lines
    let account_from ← pyIdx extracted_text_lines ((line_index : Int) + 1)
    let amount ← amountFromSearch extracted_text_lines line_index
    pure (some
      { kind := .incomingPayment
        statement_account := statement_account
        year := some year
        account_from := some (pyStrip account_from)
        amount := amount
        date_booked := some date
        account_to := some account_to })
  else if bank = "csob" then do
    let date ← dateOfMarker bank year line_index extracted_text_lines
    let (account_from, amount) ← csobAcctAmount extracted_text_lines line_index
    pure (some
      { kind := .incomingPayment
        statement_account := statement_account
        year := some year
        account_from := some account_from
        amount := amount
        date_booked := some date
        account_to := some account_to })
  else pure none

/-- `OutgoingPayment.create`. -/
def OutgoingPayment.create (bank year statement_account account_from : String)
    (line_index : ℕ) (extracted_text_lines : List String) :
    Except PyErr (Option Transaction) :=
  if bank = "cs" then do
    let date ← dateOfMarker bank year line_index extracted_text_lines
    let next ← pyIdx extracted_text_lines ((line_index : Int) + 1)
    let offset : ℕ := if strContains next "okamžitá" then 1 else 0
    let account_to ← pyIdx extracted_text_lines ((line_index : Int) + 1 + offset)
    let amount ← amountFromSearch extracted_text_lines line_index
    pure (some
      { kind := .outgoingPayment
        statement_account := statement_account
        year := some year
        account_from := some account_from
        amount := amount
        date_booked := some date
        account_to := some (pyStrip account_to) })
  else if bank = "csob" then do
    let date ← dateOfMarker bank year line_index extracted_text_lines
    let (account_to, amount) ← csobAcctAmount extracted_text_lines line_index
    pure (some
      { kind := .outgoingPayment
        statement_account := statement_account
        year := some year
        account_from := some account_from
        amount := amount
        date_booked := some date
        account_to := some account_to })
  else pure none

/-- `OutgoingPaymentPeriodic.create`. -/
def OutgoingPaymentPeriodic.create (bank year statement_account account_from : String)
    (line_index : ℕ) (extracted_text_lines : List String) :
    Except PyErr (Option Transaction) :=
  if bank = "cs" then do
    let date ← dateOfMarker bank year line_index extracted_text_lines
    let account_to := (get_account_nr_line extracted_text_lines line_index).map Prod.fst
    let amount ← amountFromSearch extracted_text_lines line_index
    pure (some
      { kind := .outgoingPaymentPeriodic
        statement_account := statement_account
        year := some year
        account_from := some account_from
        amount := amount
        date_booked := some date
        account_to := account_to })
  else if bank = "csob" then do
    let date ← dateOfMarker bank year line_index extracted_text_lines
    let (account_to, amount) ← csobAcctAmount extracted_text_lines line_index
    pure (some
      { kind := .outgoingPaymentPeriodic
        statement_account := statement_account
        year := some year
        account_from := some account_from
        amount := amount
        date_booked := some date
        account_to := some account_to })
  else pure none

/-- `CardPaymentDebit.create`. -/
def CardPaymentDebit.create (bank year statement_account account_from : String)
    (line_index : ℕ) (extracted_text_lines : List String) :
    Except PyErr (Option Transaction) :=
  if bank = "cs" then do
    let date ← dateOfMarker bank year line_index extracted_text_lines
    let l1 ← pyIdx extracted_text_lines ((line_index : Int) + 1)
    let variable_symbol ← pyInt (pyStrip l1)
    let amount ← amountFromSearch extracted_text_lines line_index
    let l3 ← pyIdx extracted_text_lines ((line_index : Int) + 3)
    let constant_symbol ← pyInt (pyStrip l3)
    let l4 ← pyIdx extracted_text_lines ((line_index : Int) + 4)
    let specific_symbol ← pyInt (pyStrip l4)
    let l5 ← pyIdx extracted_text_lines ((line_index : Int) + 5)
    let card_identifier :=
      pyReplace ((pySplitSpace (pyStrip l5)).headD "") "X" ""
    let payment_date :=
      pyReplace (pyLast (pySplitSpace (pyStrip l5))) "d.tran." ""
    let l6 ← pyIdx extracted_text_lines ((line_index : Int) + 6)
    let vendor_text := pyStrip l6
    pure (some
      { kind := .cardPaymentDebit
        statement_account := statement_account
        year := some year
        account_from := some account_from
        amount := amount
        date_booked := some date
        payment_date := some payment_date
        variable_symbol := some variable_symbol
        constant_symbol := some constant_symbol
        specific_symbol := some specific_symbol
        card_identifier := some card_identifier
        vendor_text := some vendor_text
        card_owner := some (get_card_owner (some card_identifier)) })
  else if bank = "csob" then do
    let date ← dateOfMarker bank year line_index extracted_text_lines
    let amount ← amountFromSearch extracted_text_lines line_index
    let l4 ← pyIdx extracted_text_lines ((line_index : Int) + 4)
    let variable_symbol ← pyInt (pyStrip l4)
    let l5 ← pyIdx extracted_text_lines ((line_index : Int) + 5)
    let constant_symbol ← pyInt (pyStrip l5)
    let l6 ← pyIdx extracted_text_lines ((line_index : Int) + 6)
    let specific_symbol ← pyInt (pyStrip l6)
    let card_identifier := takeRight4 (pyStrip l6)
    let l8 ← pyIdx extracted_text_lines ((line_index : Int) + 8)
    let payment_date := pyLast (pySplitSpace (pyStrip l8))
    let l7 ← pyIdx extracted_text_lines ((line_index : Int) + 7)
    let l9 ← pyIdx extracted_text_lines ((line_index : Int) + 9)
    let vendor_text := pyStrip l7 ++ pyStrip l9
    pure (some
      { kind := .cardPaymentDebit
        statement_account := statement_account
        year := some year
        account_from := some account_from
        amount := amount
        date_booked := some date
        payment_date := some payment_date
        variable_symbol := some variable_symbol
        constant_symbol := some constant_symbol
        specific_symbol := some specific_symbol
        card_identifier := some card_identifier
        vendor_text := some vendor_text
        card_owner := some (get_card_owner (some card_identifier)) })
  else pure none

/-- `CardPaymentIncoming.create`.  Note: the CS branch builds a
`CardPaymentDebit` (not a `CardPaymentIncoming`) and drops the
`account_to` argument. -/
def CardPaymentIncoming.create (bank year statement_account account_to : String)
    (line_index : ℕ) (extracted_text_lines : List String) :
    Except PyErr (Option Transaction) :=
  if bank = "cs" then do
    let date ← dateOfMarker bank year line_index extracted_text_lines
    let l1 ← pyIdx extracted_text_lines ((line_index : Int) + 1)
    let variable_symbol ← pyInt (pyStrip l1)
    let amount ← amountFromSearch extracted_text_lines line_index
    let l4 ← pyIdx extracted_text_lines ((line_index : Int) + 4)
    let constant_symbol ← pyInt (pyStrip l4)
    let l5 ← pyIdx extracted_text_lines ((line_index : Int) + 5)
    let specific_symbol ← pyInt (pyStrip l5)
    let l6 ← pyIdx extracted_text_lines ((line_index : Int) + 6)
    let card_identifier := pyReplace ((pySplitSpace (pyStrip l6)).headD "") "X" ""
    let payment_date := pyReplace (pyLast (pySplitSpace (pyStrip l6))) "d.tran." ""
    let l7 ← pyIdx extracted_text_lines ((line_index : Int) + 7)
    let vendor_text := pyStrip l7
    pure (some
      { kind := .cardPaymentDebit
        statement_account := statement_account
        year := some year
        amount := amount
        date_booked := some date
        payment_date := some payment_date
        variable_symbol := some variable_symbol
        constant_symbol := some constant_symbol
        specific_symbol := some specific_symbol
        card_identifier := some card_identifier
        vendor_text := some vendor_text
        card_owner := some (get_card_owner (some card_identifier)) })
  else if bank = "csob" then do
    let date ← dateOfMarker bank year line_index extracted_text_lines
    let al ← pyIdx extracted_text_lines ((line_index : Int) + 2)
    let amount ← pdf_amount_to_float (pyStrip al)
    let l4 ← pyIdx extracted_text_lines ((line_index : Int) + 4)
    let variable_symbol ← pyInt (pyStrip l4)
    let l5 ← pyIdx extracted_text_lines ((line_index : Int) + 5)
    let constant_symbol ← pyInt (pyStrip l5)
    let l6 ← pyIdx extracted_text_lines ((line_index : Int) + 6)
    let specific_symbol ← pyInt (pyStrip l6)
    let card_identifier := takeRight4 (pyStrip l6)
    let l8 ← pyIdx extracted_text_lines ((line_index : Int) + 8)
    let payment_date := pyLast (pySplitSpace (pyStrip l8))
    let l7 ← pyIdx extracted_text_lines ((line_index : Int) + 7)
    let l9 ← pyIdx extracted_text_lines ((line_index : Int) + 9)
    let vendor_text := pyStrip l7 ++ pyStrip l9
    pure (some
      { kind := .cardPaymentIncoming
        statement_account := statement_account
        year := some year
        account_to := some account_to
        amount := amount
        date_booked := some date
        payment_date := some payment_date
        variable_symbol := some variable_symbol
        constant_symbol := some constant_symbol
        specific_symbol := some specific_symbol
        card_identifier := some card_identifier
        vendor_text := some vendor_text
        card_owner := some (get_card_owner (some card_identifier)) })
  else pure none

/-- `CardAtmCashOut.is_our_bank_atm`. -/
def is_our_bank_atm (line_index : ℕ) (extracted_text_lines : List String) :
    Except PyErr Bool := do
  let next ← pyIdx extracted_text_lines ((line_index : Int) + 1)
  pure (¬strContains next "jiné banky v ČR")

/-- `CardAtmCashOut.create` (CS branch only; any other bank returns
`None`). -/
def CardAtmCashOut.create (bank year statement_account account_from : String)
    (line_index : ℕ) (extracted_text_lines : List String) :
    Except PyErr (Option Transaction) :=
  if bank = "cs" then do
    let date ← dateOfMarker bank year line_index extracted_text_lines
    let own_bank_atm ← is_our_bank_atm line_index extracted_text_lines
    let offset : ℕ := if own_bank_atm then 0 else 1
    let l1 ← pyIdx extracted_text_lines ((line_index : Int) + 1 + offset)
    let variable_symbol ← pyInt (pyStrip l1)
    let amount ← amountFromSearch extracted_text_lines line_index
    let l3 ← pyIdx extracted_text_lines ((line_index : Int) + 3 + offset)
    let constant_symbol ← pyInt (pyStrip l3)
    let l4 ← pyIdx extracted_text_lines ((line_index : Int) + 4 + offset)
    let specific_symbol ← pyInt (pyStrip l4)
    let l5 ← pyIdx extracted_text_lines ((line_index : Int) + 5 + offset)
    let card_identifier := pyReplace ((pySplitSpace (pyStrip l5)).headD "") "X" ""
    let cash_out_date := pyReplace (pyLast (pySplitSpace (pyStrip l5))) "d.tran." ""
    let l6 ← pyIdx extracted_text_lines ((line_index : Int) + 6 + offset)
    let vendor_text := pyStrip l6
    pure (some
      { kind := .cardAtmCashOut
        statement_account := statement_account
        year := some year
        account_from := some account_from
        amount := amount
        date_booked := some date
        variable_symbol := some variable_symbol
        constant_symbol := some constant_symbol
        specific_symbol := some specific_symbol
        card_identifier := some card_identifier
        vendor_text := some vendor_text
        our_bank_atm := own_bank_atm
        cash_out_date := cash_out_date
        card_owner := some (get_card_owner (some card_identifier)) })
  else pure none

/-- `CardAtmDeposit.create` (CS branch only). -/
def CardAtmDeposit.create (bank year statement_account account_from : String)
    (line_index : ℕ) (extracted_text_lines : List String) :
    Except PyErr (Option Transaction) :=
  if bank = "cs" then do
    let date ← dateOfMarker bank year line_index extracted_text_lines
    let l1 ← pyIdx extracted_text_lines ((line_index : Int) + 1)
    let variable_symbol ← pyInt (pyStrip l1)
    let amount ← amountFromSearch extracted_text_lines line_index
    let l3 ← pyIdx extracted_text_lines ((line_index : Int) + 3)
    let constant_symbol ← pyInt (pyStrip l3)
    pure (some
      { kind := .cardAtmDeposit
        statement_account := statement_account
        year := some year
        account_from := some account_from
        account_to := some statement_account
        amount := amount
        date_booked := some date
        variable_symbol := some variable_symbol
        constant_symbol := some constant_symbol
        deposit_date := date })
  else pure none

/-- `BankPayedService.get_cs_bank_service_type`: the keyed lookup on the
line after the marker, with an optional subtype from the line after
that. -/
def get_cs_bank_service_type (line_index : ℕ) (extracted_text_lines : List String) :
    Except PyErr String := do
  let l1 ← pyIdx extracted_text_lines ((line_index : Int) + 1)
  if strContains l1 "Cena za výběr hotovosti z bankomatu" then do
    let l2 ← pyIdx extracted_text_lines ((line_index : Int) + 2)
    if strContains l2 "jiné banky v ČR" then
      pure "Cena za výběr hotovosti z bankomatu - jiné banky v ČR"
    else pure "Cena za výběr hotovosti z bankomatu"
  else if strContains l1 "Cena za vedení účtu" then
    pure "Cena za vedení účtu"
  else if strContains l1 "Poplatek" then do
    let l2 ← pyIdx extracted_text_lines ((line_index : Int) + 2)
    if strContains l2 "platební karta" then pure "Poplatek - platební karta"
    else pure "Poplatek"
  else pure ""

/-- `BankPayedService.get_csob_bank_service_type`: keys checked on the
marker line itself, wrapped in newlines. -/
def get_csob_bank_service_type (line_index : ℕ) (extracted_text_lines : List String) :
    Except PyErr String := do
  let l0 ← pyIdx extracted_text_lines (line_index : Int)
  if strContains l0 "Poplatek" then
    if strContains l0 "platební karta" then pure "\nPoplatek - platební karta\n"
    else pure "\nPoplatek\n"
  else pure "\n"

/-- `BankPayedService.create`. -/
def BankPayedService.create (bank year statement_account account_from : String)
    (line_index : ℕ) (extracted_text_lines : List String) :
    Except PyErr (Option Transaction) :=
  if bank = "cs" then do
    let date ← dateOfMarker bank year line_index extracted_text_lines
    let amount ← amountFromSearch extracted_text_lines line_index
    let service_type ← get_cs_bank_service_type line_index extracted_text_lines
    pure (some
      { kind := .bankPayedService
        statement_account := statement_account
        year := some year
        account_from := some account_from
        amount := amount
        date_booked := some date
        service_type := some service_type })
  else if bank = "csob" then do
    let date ← dateOfMarker bank year line_index extracted_text_lines
    let amount ← amountFromSearch extracted_text_lines line_index
    let service_type ← get_csob_bank_service_type line_index extracted_text_lines
    pure (some
      { kind := .bankPayedService
        statement_account := statement_account
        year := some year
        account_from := some account_from
        amount := amount
        date_booked := some date
        service_type := some service_type })
  else pure none

/-- `InterestPositive.create`. -/
def InterestPositive.create (bank year statement_account account_from : String)
    (line_index : ℕ) (extracted_text_lines : List String) :
    Except PyErr (Option Transaction) :=
  if bank = "cs" then do
    let date ← dateOfMarker bank year line_index extracted_text_lines
    let amount ← amountFromSearch extracted_text_lines line_index
    pure (some
      { kind := .interestPositive
        statement_account := statement_account
        year := some year
        account_from := some account_from
        amount := amount
        date_booked := some date
        account_to := some account_from })
  else if bank = "csob" then do
    let date ← dateOfMarker bank year line_index extracted_text_lines
    let al ← pyIdx extracted_text_lines ((line_index : Int) + 2)
    let amount ← pdf_amount_to_float (pyStrip al)
    pure (some
      { kind := .interestPositive
        statement_account := statement_account
        year := some year
        account_from := some account_from
        amount := amount
        date_booked := some date
        account_to := some account_from })
  else pure none

/-- `TaxInterest.create` (CS branch only). -/
def TaxInterest.create (bank year statement_account account_from : String)
    (line_index : ℕ) (extracted_text_lines : List String) :
    Except PyErr (Option Transaction) :=
  if bank = "cs" then do
    let date ← dateOfMarker bank year line_index extracted_text_lines
    let amount ← amountFromSearch extracted_text_lines line_index
    pure (some
      { kind := .taxInterest
        statement_account := statement_account
        year := some year
        account_from := some account_from
        amount := amount
        date_booked := some date })
  else pure none

/-- `ElectronicBankingTransfer.create` (no account argument; the CS branch
is `pass`, so it returns `None`). -/
def ElectronicBankingTransfer.create (bank year statement_account : String)
    (line_index : ℕ) (extracted_text_lines : List String) :
    Except PyErr (Option Transaction) :=
  if bank = "cs" then pure none
  else if bank = "csob" then do
    let date ← dateOfMarker bank year line_index extracted_text_lines
    let (counter_party, amount) ← csobAcctAmount extracted_text_lines line_index
    let (account_from, account_to) :=
      if amount < 0 then (statement_account, counter_party)
      else (counter_party, statement_account)
    pure (some
      { kind := .electronicBankingTransfer
        statement_account := statement_account
        year := some year
        account_from := some account_from
        amount := amount
        date_booked := some date
        account_to := some account_to })
  else pure none

/-- `DirectDebit.create`. -/
def DirectDebit.create (bank year statement_account account_from : String)
    (line_index : ℕ) (extracted_text_lines : List String) :
    Except PyErr (Option Transaction) :=
  if bank = "cs" then do
    let date ← dateOfMarker bank year line_index extracted_text_lines
    let account_to := (get_account_nr_line extracted_text_lines line_index).map Prod.fst
    let amount ← amountFromSearch extracted_text_lines line_index
    pure (some
      { kind := .directDebit
        statement_account := statement_account
        year := some year
        account_from := some account_from
        amount := amount
        date_booked := some date
        account_to := account_to })
  else if bank = "csob" then do
    let date ← dateOfMarker bank year line_index extracted_text_lines
    let (account_to, amount) ← csobAcctAmount extracted_text_lines line_index
    pure (some
      { kind := .directDebit
        statement_account := statement_account
        year := some year
        account_from := some account_from
        amount := amount
        date_booked := some date
        account_to := some account_to })
  else pure none

/-! ## src/src/account_statement.py — PDF segmentation engine -/

/-- `TransactionConstants.TRANSACTION_END_SECTION` from src/src/constants.py. -/
def TRANSACTION_END_SECTION : List String :=
  [ "Konečný zůstatek:",
    "Pokračování na další straně",
    "Výpis z účtu",
    "Datum",
    "Strana:",
    "Prosíme Vás o včasné překontrolování uvedených údajů. V případě nesouhlasu kontaktujte prosím svoje obchodní místo nebo volejte na telefon",
    "Vážená klientko, vážený kliente," ]

/-- `any(identifier in line for identifier in K.text_identifiers.get(bank))`. -/
def kindMatches (bank : String) (line : String) (k : TxKind) : Bool :=
  (text_identifiers k bank).any (fun idf => strContains line idf)

/-- The `elif` dispatch chain of `get_transactions_pdf`, transcribed in
source order; `none` when no kind's marker occurs in the line. -/
def selectKind (bank : String) (line : String) : Option TxKind :=
  if kindMatches bank line .cardPaymentIncoming then some .cardPaymentIncoming
  else if kindMatches bank line .incomingPayment then some .incomingPayment
  else if kindMatches bank line .outgoingPayment then some .outgoingPayment
  else if kindMatches bank line .cardPaymentDebit then some .cardPaymentDebit
  else if kindMatches bank line .cardAtmCashOut then some .cardAtmCashOut
  else if kindMatches bank line .bankPayedService then some .bankPayedService
  else if kindMatches bank line .outgoingPaymentPeriodic then some .outgoingPaymentPeriodic
  else if kindMatches bank line .interestPositive then some .interestPositive
  else if kindMatches bank line .taxInterest then some .taxInterest
  else if kindMatches bank line .electronicBankingTransfer then some .electronicBankingTransfer
  else if kindMatches bank line .directDebit then some .directDebit
  else if kindMatches bank line .cardAtmDeposit then some .cardAtmDeposit
  else none

/-- Dispatch to the matched kind's bank-specific `create` rule, with the
account arguments each branch of `get_transactions_pdf` passes. -/
def invokeCreate (k : TxKind) (bank year acctNr : String) (i : ℕ)
    (page : List String) : Except PyErr (Option Transaction) :=
  match k with
  | .cardPaymentIncoming => CardPaymentIncoming.create bank year acctNr acctNr i page
  | .incomingPayment => IncomingPayment.create bank year acctNr acctNr i page
  | .outgoingPayment => OutgoingPayment.create bank year acctNr acctNr i page
  | .cardPaymentDebit => CardPaymentDebit.create bank year acctNr acctNr i page
  | .cardAtmCashOut => CardAtmCashOut.create bank year acctNr acctNr i page
  | .bankPayedService => BankPayedService.create bank year acctNr acctNr i page
  | .outgoingPaymentPeriodic => OutgoingPaymentPeriodic.create bank year acctNr acctNr i page
  | .interestPositive => InterestPositive.create bank year acctNr acctNr i page
  | .taxInterest => TaxInterest.create bank year acctNr acctNr i page
  | .electronicBankingTransfer => ElectronicBankingTransfer.create bank year acctNr i page
  | .directDebit => DirectDebit.create bank year acctNr acctNr i page
  | .cardAtmDeposit => CardAtmDeposit.create bank year acctNr acctNr i page

/-- The global `Transaction.all` registry together with the id generator
(`Transaction.id_generator(start_id=1)`). -/
structure Registry : Type where
  nextId : ℕ := 1
  txs : List Transaction := []
deriving DecidableEq

/-- State of the segmentation engine while scanning one statement:
the global registry, the statement's own `all_transactions` list, and the
`is_transaction_lines_active` flag (Accumulating vs Idle). -/
structure EngineState : Type where
  registry : Registry := {}
  stTxs : List Transaction := []
  active : Bool := false
deriving DecidableEq

/-- Append a freshly created transaction: `__post_init__` assigns the next
id and appends to the global registry, `get_transactions_pdf` appends to
the statement list and then sets `parent_statement` on the (shared)
object. -/
def registerTx (filePath : String) (st : EngineState) (tx : Transaction) :
    EngineState :=
  let tx' := { tx with transaction_id := st.registry.nextId,
                       parent_statement := some filePath }
  { registry := { nextId := st.registry.nextId + 1, txs := st.registry.txs ++ [tx'] }
    stTxs := st.stTxs ++ [tx']
    active := true }

/-- Append a body line to the currently open transaction: the source
mutates `self.all_transactions[-1]`, the same object that sits at the end
of the global registry. -/
def appendBodyLine (line : String) (st : EngineState) : Except PyErr EngineState :=
  match st.stTxs.getLast? with
  | none => .error .indexError
  | some tx =>
    let tx' := { tx with
      all_transaction_lines_text := tx.all_transaction_lines_text ++ pyStrip line ++ "\n" }
    .ok { st with
      stTxs := st.stTxs.dropLast ++ [tx'],
      registry := { st.registry with
        txs := if st.registry.txs.getLast? = some tx then
                 st.registry.txs.dropLast ++ [tx'] else st.registry.txs } }

/-- One line of `get_transactions_pdf`: the 12-way marker dispatch, the
section-end sentinel check, and body-line accumulation.  A bank name
without entries in the `text_identifiers` dictionaries (`.get` returning
`None`) makes the very first `any(... for ... in None)` raise
`TypeError`. -/
def stepLine (bank year acctNr filePath : String) (page : List String) (i : ℕ)
    (st : EngineState) : Except PyErr EngineState :=
  if bank ≠ "cs" ∧ bank ≠ "csob" then .error .typeError
  else
    let line := page.getD i ""
    match selectKind bank line with
    | some k =>
      match invokeCreate k bank year acctNr i page with
      | .error e => .error e
      | .ok none => .error .attributeError
      | .ok (some tx) => .ok (registerTx filePath st tx)
    | none =>
      if line ∈ TRANSACTION_END_SECTION then .ok { st with active := false }
      else if st.active ∧ line ≠ "" then appendBodyLine line st
      else .ok st

/-- `get_transactions_pdf` over one page: every line in order. -/
def processPage (bank year acctNr filePath : String) (st : EngineState)
    (page : List String) : Except PyErr EngineState :=
  (List.range page.length).foldlM (fun s i => stepLine bank year acctNr filePath page i s) st

/-- `get_transactions_pdf` over all pages (the Accumulating flag persists
across pages). -/
def get_transactions_pdf (bank year acctNr filePath : String)
    (pages : List (List String)) (st : EngineState) : Except PyErr EngineState :=
  pages.foldlM (processPage bank year acctNr filePath) st

/-! ## src/src/account_statement.py — CSV path -/

/-- One row of the Revolut CSV (`csv.DictReader` mapping, required
columns). -/
structure CsvRow : Type where
  typ : String
  startedDate : String
  completedDate : String
  description : String
  amount : String
  fee : String
  currency : String
  state : String
  balance : String
deriving DecidableEq

/-- `float(...)` where a failure is Python's `ValueError`. -/
def pyFloatE (s : String) : Except PyErr ℚ :=
  match pyFloatQ s with
  | some q => .ok q
  | none => .error .valueError

/-- `StatementAccount.is_transaction_valid`. -/
def is_transaction_valid (state : String) : Bool := pyLower state = "completed"

/-- One entry of the `revolut_rules` table. -/
structure CsvRule : Type where
  kind : TxKind
  types : List String
  negative : Bool

/-- The `revolut_rules` dictionary in its (insertion-)iteration order. -/
def revolut_rules : List CsvRule :=
  [ ⟨.outgoingPayment, ["transfer", "exchange"], true⟩,
    ⟨.incomingPayment, ["transfer", "exchange", "topup"], false⟩,
    ⟨.cardPaymentDebit, ["card_payment"], true⟩,
    ⟨.cardPaymentIncoming, ["card_payment"], false⟩,
    ⟨.bankPayedService, ["fee"], true⟩,
    ⟨.cardAtmCashOut, ["atm"], true⟩ ]

/-- The primary transaction built for a matched rule, field for field as in
`get_transactions_csv` (the `card_owner` of card kinds is filled by
`__post_init__` via the lookup table). -/
def csvPrimaryTx (acctNr filePath year : String) (dateStarted dateCompleted
    description currency : String) (amount : ℚ) (k : TxKind) : Transaction :=
  match k with
  | .outgoingPayment =>
    { kind := .outgoingPayment
      statement_account := acctNr
      parent_statement := some filePath
      account_from := some acctNr
      year := some year
      amount := amount
      date_booked := some dateCompleted
      currency := currency
      all_transaction_lines_text := description }
  | .incomingPayment =>
    { kind := .incomingPayment
      statement_account := acctNr
      parent_statement := some filePath
      account_to := some acctNr
      year := some year
      amount := amount
      date_booked := some dateCompleted
      currency := currency
      all_transaction_lines_text := description }
  | .cardPaymentDebit =>
    { kind := .cardPaymentDebit
      statement_account := acctNr
      parent_statement := some filePath
      account_from := some acctNr
      year := some year
      amount := amount
      card_identifier := some "9448"
      payment_date := some dateStarted
      date_booked := some dateCompleted
      currency := currency
      all_transaction_lines_text := description
      card_owner := some (get_card_owner (some "9448")) }
  | .cardPaymentIncoming =>
    { kind := .cardPaymentIncoming
      statement_account := acctNr
      parent_statement := some filePath
      account_to := some acctNr
      year := some year
      amount := amount
      date_booked := some dateCompleted
      currency := currency
      all_transaction_lines_text := description
      card_owner := some (get_card_owner none) }
  | .bankPayedService =>
    { kind := .bankPayedService
      statement_account := acctNr
      parent_statement := some filePath
      account_from := some acctNr
      year := some year
      amount := amount
      date_booked := some dateCompleted
      currency := currency
      all_transaction_lines_text := description
      service_type := some "" }
  | _ =>
    { kind := .cardAtmCashOut
      statement_account := acctNr
      parent_statement := some filePath
      account_from := some acctNr
      year := some year
      amount := amount
      date_booked := some dateCompleted
      currency := currency
      all_transaction_lines_text := description
      card_owner := some (get_card_owner none) }

/-- The synthesized fee transaction (`service_type = "transaction fee"`,
`amount = fee * -1`). -/
def csvFeeTx (acctNr filePath year : String) (dateCompleted description
    currency : String) (fee : ℚ) : Transaction :=
  { kind := .bankPayedService
    statement_account := acctNr
    parent_statement := some filePath
    account_from := some acctNr
    year := some year
    amount := fee * (-1)
    date_booked := some dateCompleted
    currency := currency
    all_transaction_lines_text := description
    service_type := some "transaction fee" }

/-- One row of `get_transactions_csv`: parse the row's fields (any
conversion failure raising out of the loop), drop rows that are not
`Completed`, then walk the `revolut_rules` table in order appending the
primary transaction of each matching rule plus, for positive fees, the
synthesized fee transaction.  Returns the transactions this row appends
to the statement's list and the global registry. -/
def processCsvRow (acctNr filePath year : String) (row : CsvRow) :
    Except PyErr (List Transaction) := do
  let dateStartedE : Except PyErr String :=
    if row.startedDate = "" then .ok "ERROR - MISSING DATE"
    else get_date_from_string row.startedDate
  let dateCompletedE : Except PyErr String :=
    if row.completedDate = "" then .ok "ERROR - MISSING DATE"
    else get_date_from_string row.completedDate
  let dateStarted ← dateStartedE
  let dateCompleted ← dateCompletedE
  let amount ← pyFloatE row.amount
  let fee ← pyFloatE row.fee
  if ¬is_transaction_valid row.state then pure []
  else
    pure (revolut_rules.foldl (fun acc rule =>
      if rule.types.contains (pyLower row.typ) ∧ rule.negative = decide (amount < 0) then
        acc ++ [csvPrimaryTx acctNr filePath year dateStarted dateCompleted
                  row.description row.currency amount rule.kind] ++
        (if fee > 0 then
          [csvFeeTx acctNr filePath year dateCompleted row.description
             row.currency fee]
         else [])
      else acc) [])

/-! ## src/main.py — reconciliation check -/

/-- `validate_all_transactions_extracted` for one statement: `some m`
exactly when the warning with missing amount `m` is printed, `none` when
the sums agree; the function only prints, so registries are untouched and
processing continues either way. -/
def validateStatement (startBalance endBalance : ℚ) (amounts : List ℚ) :
    Option ℚ :=
  if round2 (endBalance - startBalance) ≠ round2 amounts.sum then
    some (round2 ((endBalance - startBalance) - amounts.sum))
  else none

/-! ## src/src/transactions.py — registry operations -/

/-- The `(datetime.strptime(tx.date_booked, "%d.%m.%Y"), tx.transaction_id)`
sort key: `none` when the date is missing or unparseable (where Python
raises). -/
def dateKey (tx : Transaction) : Option (ℕ × ℕ × ℕ) :=
  match tx.date_booked with
  | none => none
  | some s => parseDMY s

/-- Lexicographic strict order on `(year, month, day)` dates. -/
def dateLT (x y : ℕ × ℕ × ℕ) : Bool :=
  x.1 < y.1 ∨ (x.1 = y.1 ∧ (x.2.1 < y.2.1 ∨ (x.2.1 = y.2.1 ∧ x.2.2 < y.2.2)))

/-- The comparison `list.sort(key=get_sort_key)` uses: date first,
transaction id as tie-break. -/
def keyLE (a b : Transaction) : Bool :=
  dateLT ((dateKey a).getD (0, 0, 0)) ((dateKey b).getD (0, 0, 0)) ∨
  ((dateKey a).getD (0, 0, 0) = (dateKey b).getD (0, 0, 0) ∧
   a.transaction_id ≤ b.transaction_id)

/-- `Transaction.sort_transactions`: stable sort of the registry by
`(date_booked, transaction_id)`; computing a sort key of a missing or
malformed date raises out of `sort`. -/
def sort_transactions (txs : List Transaction) : Except PyErr (List Transaction) :=
  if txs.all (fun tx => (dateKey tx).isSome) then .ok (txs.mergeSort keyLE)
  else .error .valueError

/-- The renumbering loop of `save_transactions_json`,
`for i, transaction in enumerate(cls.all): transaction.transaction_id = i + 1`,
unrolled: assign `n`, `n+1`, … down the list. -/
def renumberFrom (n : ℕ) : List Transaction → List Transaction
  | [] => []
  | tx :: rest => { tx with transaction_id := n } :: renumberFrom (n + 1) rest

/-- The renumbering loop of `save_transactions_json`:
`transaction.transaction_id = i + 1` in sorted order. -/
def renumberTransactions (txs : List Transaction) : List Transaction :=
  renumberFrom 1 txs

/-! ## src/src/transactions.py — structured export / re-import -/

/-- The field names `dataclasses.asdict` exports for each kind, in
dataclass order (base `Transaction` fields first, then the fields each
subclass adds).  `transaction_id` is among them: `asdict` exports every
field, including `init=False` ones. -/
def exportedFieldNames (k : TxKind) : List String :=
  [ "statement_account", "parent_statement", "transaction_id", "year",
    "account_from", "amount", "date_booked", "account_to", "currency",
    "account_from_name", "sender_note", "variable_symbol", "constant_symbol",
    "specific_symbol", "all_transaction_lines_text", "user_description",
    "user_category" ] ++
  (match k with
   | .cardPaymentDebit => ["payment_date", "card_identifier", "vendor_text", "card_owner"]
   | .cardPaymentIncoming => ["payment_date", "card_identifier", "vendor_text", "card_owner"]
   | .cardAtmCashOut =>
     ["payment_date", "card_identifier", "vendor_text", "card_owner",
      "our_bank_atm", "cash_out_date"]
   | .cardAtmDeposit => ["deposit_date"]
   | .bankPayedService => ["service_type"]
   | _ => [])

/-- The keyword parameters each kind's generated `__init__` accepts:
every dataclass field except `transaction_id`, which is declared
`init=False`. -/
def initParamNames (k : TxKind) : List String :=
  (exportedFieldNames k).filter (fun f => f ≠ "transaction_id")

/-- The `type`-field dispatch of `load_transactions_json`: the kind whose
constructor is called for a stored type name (note the
`"IncomingElectronicBankingTransfer"` label, which no export ever
produces), or `none` for labels the chain silently skips. -/
def loadDispatch (typeName : String) : Option TxKind :=
  if typeName = "IncomingPayment" then some .incomingPayment
  else if typeName = "OutgoingPayment" then some .outgoingPayment
  else if typeName = "OutgoingPaymentPeriodic" then some .outgoingPaymentPeriodic
  else if typeName = "CardPaymentDebit" then some .cardPaymentDebit
  else if typeName = "CardPaymentIncoming" then some .cardPaymentIncoming
  else if typeName = "CardAtmCashOut" then some .cardAtmCashOut
  else if typeName = "BankPayedService" then some .bankPayedService
  else if typeName = "InterestPositive" then some .interestPositive
  else if typeName = "TaxInterest" then some .taxInterest
  else if typeName = "IncomingElectronicBankingTransfer" then some .electronicBankingTransfer
  else if typeName = "DirectDebit" then some .directDebit
  else none

/-- Re-import of one stored record after `transaction.pop("type")`:
dispatch on the type label and call the kind constructor with the
remaining keys (`Kind(**transaction)`).  A key the constructor does not
accept raises `TypeError`; an unrecognized label is silently skipped
(`.ok false`). -/
def loadRecord (typeName : String) (fieldKeys : List String) : Except PyErr Bool :=
  match loadDispatch typeName with
  | none => .ok false
  | some k =>
    if fieldKeys.all (fun f => f ∈ initParamNames k) then .ok true
    else .error .typeError

/-! ## The supported amount format (for the parsing law) -/

/-- A well-formed bank-statement amount string, structurally: an optional
sign, a first digit group, further digit groups each preceded by a
thousand separator, and an optional decimal part of a separator and
exactly two digits. -/
structure AmountShape : Type where
  sign : Option Bool
  firstGroup : List Char
  restGroups : List (Char × List Char)
  dec : Option (Char × Char × Char)

/-- `'-'`, `'+'` or nothing. -/
def signChars (s : Option Bool) : List Char :=
  match s with
  | some true => ['-']
  | some false => ['+']
  | none => []

/-- The integer part as printed: groups with their separators. -/
def intChars (a : AmountShape) : List Char :=
  a.firstGroup ++ a.restGroups.foldr (fun p acc => p.1 :: (p.2 ++ acc)) []

/-- The digits of the integer part (separators dropped). -/
def intDigits (a : AmountShape) : List Char :=
  a.firstGroup ++ a.restGroups.foldr (fun p acc => p.2 ++ acc) []

/-- Print an `AmountShape` as the statement text shows it. -/
def renderAmount (a : AmountShape) : String :=
  ⟨signChars a.sign ++ intChars a ++
    (match a.dec with
     | none => []
     | some (sep, d1, d2) => [sep, d1, d2])⟩

/-- The number an `AmountShape` denotes: the signed decimal value of its
digits. -/
def denoteAmount (a : AmountShape) : ℚ :=
  (if a.sign = some true then -1 else 1) *
  ((digitsVal (intDigits a) : ℚ) +
    (match a.dec with
     | none => 0
     | some (_, d1, d2) => (digitsVal [d1, d2] : ℚ) / 100))

/-! ## Theorems -/

theorem exBind_ok {ε α β : Type} (a : α) (f : α → Except ε β) :
    (Except.ok a : Except ε α) >>= f = f a := rfl

theorem exBind_err {ε α β : Type} (e : ε) (f : α → Except ε β) :
    (Except.error e : Except ε α) >>= f = Except.error e := rfl

theorem exBind_eq_ok {ε α β : Type} {x : Except ε α} {f : α → Except ε β} {b : β}
    (h : x >>= f = .ok b) : ∃ a, x = .ok a ∧ f a = .ok b := by
  cases x with
  | ok a => exact ⟨a, rfl, h⟩
  | error e => exact Except.noConfusion h

instance {ε α : Type} [DecidableEq ε] [DecidableEq α] : DecidableEq (Except ε α) :=
  fun x y =>
    match x, y with
    | .ok a, .ok b =>
      if h : a = b then .isTrue (by rw [h])
      else .isFalse (by intro hh; cases hh; exact h rfl)
    | .ok _, .error _ => .isFalse (by intro hh; cases hh)
    | .error _, .ok _ => .isFalse (by intro hh; cases hh)
    | .error e, .error f =>
      if h : e = f then .isTrue (by rw [h])
      else .isFalse (by intro hh; cases hh; exact h rfl)

/-- C6: the reconciliation check warns exactly when the rounded sum of the
statement's amounts differs from the rounded balance delta; the warning
carries the rounded missing amount `(closing − opening) − sum`; the check
is a total function (no exception) that touches no registry. -/
theorem C6_reconciliation_warning (s e : ℚ) (amts : List ℚ) :
    ((validateStatement s e amts).isSome ↔ round2 (e - s) ≠ round2 amts.sum) ∧
    (round2 (e - s) ≠ round2 amts.sum →
      validateStatement s e amts = some (round2 ((e - s) - amts.sum))) := by
  unfold validateStatement
  constructor
  · by_cases h : round2 (e - s) = round2 amts.sum <;> simp [h]
  · intro h; simp [h]

/-- C6 witness: opening 1000, closing 1500 — a sum of 480 warns with
missing amount 20, a sum of 500 does not warn. -/
theorem C6_reconciliation_warning_witness :
    validateStatement 1000 1500 [480] = some 20 ∧
    validateStatement 1000 1500 [500] = none := by
  constructor
  · have h := (C6_reconciliation_warning 1000 1500 [480]).2 (by decide)
    rw [h]; decide
  · have h := (C6_reconciliation_warning 1000 1500 [500]).1
    cases hv : validateStatement 1000 1500 [500] with
    | none => rfl
    | some m => exact absurd (by decide) (h.mp (by rw [hv]; rfl))

/-- C7: a CSV row whose `State` is not `"Completed"` case-insensitively is
skipped before any rule fires: `processCsvRow` yields the empty list, so
nothing is appended to the statement's list or the global registry. -/
theorem C7_non_completed_row_skipped (acctNr filePath year : String)
    (row : CsvRow) (a f : ℚ) (ds dc : String)
    (hds : (if row.startedDate = "" then Except.ok "ERROR - MISSING DATE"
            else get_date_from_string row.startedDate) = .ok ds)
    (hdc : (if row.completedDate = "" then Except.ok "ERROR - MISSING DATE"
            else get_date_from_string row.completedDate) = .ok dc)
    (ha : pyFloatQ row.amount = some a)
    (hf : pyFloatQ row.fee = some f)
    (hstate : is_transaction_valid row.state = false) :
    processCsvRow acctNr filePath year row = .ok [] := by
  simp only [processCsvRow, hds, hdc, exBind_ok, pyFloatE, ha, hf, hstate]
  simp only [Bool.false_eq_true, not_false_eq_true, if_true]
  rfl

/-- C7 witness: a `Reverted` card-payment row produces zero
transactions. -/
theorem C7_non_completed_row_skipped_witness :
    processCsvRow "AC" "f.csv" "2023"
      ⟨"card_payment", "2023-05-01 10:00:00", "2023-05-02 11:00:00",
       "Grocery", "-120.00", "1.50", "CZK", "Reverted", "0"⟩ = .ok [] :=
  C7_non_completed_row_skipped "AC" "f.csv" "2023" _ (-120) (3 / 2)
    "01.05.2023" "02.05.2023" (by decide) (by decide) (by decide) (by decide)
    (by decide)

/-- C8 counterexample: a `Completed` card-payment row whose `Fee` is the
non-zero value −1.50 produces exactly one transaction — the guard in
`get_transactions_csv` is `fee > 0`, not `fee ≠ 0`, so no fee transaction
is synthesized. -/
theorem C8_counterexample_negative_fee :
    (processCsvRow "AC" "f.csv" "2023"
      ⟨"card_payment", "2023-05-01 10:00:00", "2023-05-02 11:00:00",
       "Grocery", "-120.00", "-1.50", "CZK", "Completed", "0"⟩).map List.length
      = .ok 1 ∧
    pyFloatQ "-1.50" = some (-(3 / 2)) ∧ (-(3 / 2) : ℚ) ≠ 0 := by
  refine ⟨by decide, by decide, by decide⟩

/-- C8 (amended): for a completed card-payment row with negative amount,
the rules table appends exactly the primary `CardPaymentDebit`, plus — when
the parsed fee is strictly positive — one `BankPayedService` transaction
after it whose amount is `fee * (−1)` and whose service type is
`"transaction fee"`. -/
theorem C8_positive_fee_synthesizes_fee_tx (acctNr filePath year : String)
    (row : CsvRow) (a f : ℚ) (ds dc : String)
    (hds : (if row.startedDate = "" then Except.ok "ERROR - MISSING DATE"
            else get_date_from_string row.startedDate) = .ok ds)
    (hdc : (if row.completedDate = "" then Except.ok "ERROR - MISSING DATE"
            else get_date_from_string row.completedDate) = .ok dc)
    (ha : pyFloatQ row.amount = some a)
    (hf : pyFloatQ row.fee = some f)
    (hstate : is_transaction_valid row.state = true)
    (htype : pyLower row.typ = "card_payment")
    (hneg : a < 0) :
    processCsvRow acctNr filePath year row =
      .ok ([csvPrimaryTx acctNr filePath year ds dc row.description row.currency
              a .cardPaymentDebit] ++
           (if f > 0 then
             [csvFeeTx acctNr filePath year dc row.description row.currency f]
            else [])) ∧
    (csvFeeTx acctNr filePath year dc row.description row.currency f).amount = -f ∧
    (csvFeeTx acctNr filePath year dc row.description row.currency f).service_type =
      some "transaction fee" := by
  have hd : decide (a < 0) = true := by simp [hneg]
  refine ⟨?_, by simp [csvFeeTx, mul_neg_one], rfl⟩
  simp only [processCsvRow, hds, hdc, exBind_ok, pyFloatE, ha, hf, hstate]
  simp only [not_true_eq_false, if_false, revolut_rules, List.foldl, htype, hd]
  simp +decide
  rfl

/-- C8 witness: the spec's example row (`Type="card_payment"`,
`Amount=-120.00`, `Fee=1.50`, `State="Completed"`) produces exactly the
`CardPaymentDebit` of −120.00 followed by the `BankPayedService` of
−1.50. -/
theorem C8_positive_fee_synthesizes_fee_tx_witness :
    processCsvRow "AC" "f.csv" "2023"
      ⟨"card_payment", "2023-05-01 10:00:00", "2023-05-02 11:00:00",
       "Grocery", "-120.00", "1.50", "CZK", "Completed", "0"⟩ =
    .ok [csvPrimaryTx "AC" "f.csv" "2023" "01.05.2023" "02.05.2023" "Grocery"
           "CZK" (-120) .cardPaymentDebit,
         csvFeeTx "AC" "f.csv" "2023" "02.05.2023" "Grocery" "CZK" (3 / 2)] := by
  have h := (C8_positive_fee_synthesizes_fee_tx "AC" "f.csv" "2023"
    ⟨"card_payment", "2023-05-01 10:00:00", "2023-05-02 11:00:00",
     "Grocery", "-120.00", "1.50", "CZK", "Completed", "0"⟩
    (-120) (3 / 2) "01.05.2023" "02.05.2023"
    (by decide) (by decide) (by decide) (by decide) (by decide) (by decide)
    (by decide)).1
  rw [h, if_pos (by decide : (3 / 2 : ℚ) > 0)]
  rfl

/-- C9: no kind's generated constructor accepts its own exported field
set: `asdict` exports `transaction_id` but every constructor rejects it
(`init=False`), so `load_transactions_json` raises `TypeError` on every
record whose type label the dispatch recognizes — re-import can never
reconstruct a transaction, contradicting the module's own stated purpose
("Load all transactions … Instantiate all of them"). -/
theorem C9_reimport_rejects_every_dispatched_kind (k : TxKind)
    (h1 : k ≠ .electronicBankingTransfer) (h2 : k ≠ .cardAtmDeposit) :
    loadRecord k.pyName (exportedFieldNames k) = .error .typeError ∧
    "transaction_id" ∈ exportedFieldNames k ∧
    "transaction_id" ∉ initParamNames k := by
  cases k
  all_goals first
    | exact absurd rfl h1
    | exact absurd rfl h2
    | exact ⟨by decide, by decide, by decide⟩

/-- C9 witness: the record exported for an `IncomingPayment` is rejected
by the re-import dispatch with a `TypeError`. -/
theorem C9_reimport_rejects_every_dispatched_kind_witness :
    (TxKind.incomingPayment ≠ TxKind.electronicBankingTransfer) ∧
    (TxKind.incomingPayment ≠ TxKind.cardAtmDeposit) ∧
    (loadRecord TxKind.incomingPayment.pyName
        (exportedFieldNames TxKind.incomingPayment) = .error .typeError ∧
     "transaction_id" ∈ exportedFieldNames TxKind.incomingPayment ∧
     "transaction_id" ∉ initParamNames TxKind.incomingPayment) :=
  ⟨by decide, by decide,
   C9_reimport_rejects_every_dispatched_kind .incomingPayment (by decide) (by decide)⟩

/-- C10: for the CS bank, `CardPaymentIncoming.create` returns a
`CardPaymentDebit` instance and drops its `account_to` argument (the
field stays `None`); its export type label is therefore
`"CardPaymentDebit"`.  Moreover any line containing the CS marker
`"Vratka platby kartou"` dispatches to `CardPaymentIncoming` (it is the
first kind checked). -/
theorem C10_cs_card_return_creates_debit (year acct accTo : String) (i : ℕ)
    (page : List String) (tx : Transaction) (line : String)
    (h : CardPaymentIncoming.create "cs" year acct accTo i page = .ok (some tx))
    (hline : strContains line "Vratka platby kartou" = true) :
    tx.kind = .cardPaymentDebit ∧ tx.account_to = none ∧
    tx.kind.pyName = "CardPaymentDebit" ∧
    selectKind "cs" line = some .cardPaymentIncoming := by
  have hdisp : selectKind "cs" line = some .cardPaymentIncoming := by
    simp [selectKind, kindMatches, text_identifiers, hline]
  unfold CardPaymentIncoming.create at h
  rw [if_pos rfl] at h
  repeat obtain ⟨_, -, h⟩ := exBind_eq_ok h
  obtain rfl := Option.some.inj (Except.ok.inj h)
  exact ⟨rfl, rfl, rfl, hdisp⟩

/-- C10 witness: a concrete CS page whose marker line contains
`"Vratka platby kartou"`; the created transaction is a
`CardPaymentDebit` with `account_to = None`. -/
theorem C10_cs_card_return_creates_debit_witness :
    CardPaymentIncoming.create "cs" "2023" "AC" "AC" 0
      ["Vratka platby kartou 05.03.2023", "987654", "+500,00", "note", "0",
       "0", "XXXX7148 d.tran.04.03.2023", "VENDOR"] =
      .ok (some
        { kind := .cardPaymentDebit
          statement_account := "AC"
          year := some "2023"
          amount := 500
          date_booked := some "05.03.2023"
          payment_date := some "04.03.2023"
          variable_symbol := some 987654
          constant_symbol := some 0
          specific_symbol := some 0
          card_identifier := some "7148"
          vendor_text := some "VENDOR"
          card_owner := some "Ondra, ČS, VISA" }) ∧
    strContains "Vratka platby kartou 05.03.2023" "Vratka platby kartou" = true ∧
    (({ kind := .cardPaymentDebit
        statement_account := "AC"
        year := some "2023"
        amount := 500
        date_booked := some "05.03.2023"
        payment_date := some "04.03.2023"
        variable_symbol := some 987654
        constant_symbol := some 0
        specific_symbol := some 0
        card_identifier := some "7148"
        vendor_text := some "VENDOR"
        card_owner := some "Ondra, ČS, VISA" } : Transaction).kind =
        .cardPaymentDebit ∧
     ({ kind := .cardPaymentDebit
        statement_account := "AC"
        year := some "2023"
        amount := 500
        date_booked := some "05.03.2023"
        payment_date := some "04.03.2023"
        variable_symbol := some 987654
        constant_symbol := some 0
        specific_symbol := some 0
        card_identifier := some "7148"
        vendor_text := some "VENDOR"
        card_owner := some "Ondra, ČS, VISA" } : Transaction).account_to = none ∧
     TxKind.pyName .cardPaymentDebit = "CardPaymentDebit" ∧
     selectKind "cs" "Vratka platby kartou 05.03.2023" =
       some .cardPaymentIncoming) :=
  ⟨by decide, by decide,
   C10_cs_card_return_creates_debit "2023" "AC" "AC" 0
     ["Vratka platby kartou 05.03.2023", "987654", "+500,00", "note", "0",
      "0", "XXXX7148 d.tran.04.03.2023", "VENDOR"]
     _ "Vratka platby kartou 05.03.2023" (by decide) (by decide)⟩

/-- C2: the CSOB branch of `CardPaymentDebit.create` reads the variable
symbol from line `i+4`, the constant symbol from line `i+5`, the specific
symbol from line `i+6`, the card identifier as the last 4 characters of
the stripped line `i+6`, and the vendor text as the concatenation of the
stripped lines `i+7` and `i+9` (payment date: last space-separated token
of the stripped line `i+8`). -/
theorem C2_csob_card_payment_offsets (year acct af : String) (i : ℕ)
    (page : List String) (d al l4 l5 l6 l7 l8 l9 : String) (r : ℕ) (amt : ℚ)
    (vs ks ss : ℤ)
    (hd : dateOfMarker "csob" year i page = .ok d)
    (hal : get_amount_line page i = some (al, r))
    (hamt : pdf_amount_to_float (pyStrip al) = .ok amt)
    (h4 : pyIdx page ((i : Int) + 4) = .ok l4)
    (hvs : pyInt (pyStrip l4) = .ok vs)
    (h5 : pyIdx page ((i : Int) + 5) = .ok l5)
    (hks : pyInt (pyStrip l5) = .ok ks)
    (h6 : pyIdx page ((i : Int) + 6) = .ok l6)
    (hss : pyInt (pyStrip l6) = .ok ss)
    (h8 : pyIdx page ((i : Int) + 8) = .ok l8)
    (h7 : pyIdx page ((i : Int) + 7) = .ok l7)
    (h9 : pyIdx page ((i : Int) + 9) = .ok l9) :
    CardPaymentDebit.create "csob" year acct af i page = .ok (some
      { kind := .cardPaymentDebit
        statement_account := acct
        year := some year
        account_from := some af
        amount := amt
        date_booked := some d
        payment_date := some (pyLast (pySplitSpace (pyStrip l8)))
        variable_symbol := some vs
        constant_symbol := some ks
        specific_symbol := some ss
        card_identifier := some (takeRight4 (pyStrip l6))
        vendor_text := some (pyStrip l7 ++ pyStrip l9)
        card_owner := some (get_card_owner (some (takeRight4 (pyStrip l6)))) }) := by
  unfold CardPaymentDebit.create
  rw [if_neg (by decide), if_pos rfl]
  simp only [amountFromSearch, hal]
  simp only [hd, hamt, h4, hvs, h5, hks, h6, hss, h8, h7, h9, exBind_ok]
  rfl

/-- C2 witness: a concrete 10-line CSOB page with a card-payment marker at
index 0; every field lands at its documented offset. -/
theorem C2_csob_card_payment_offsets_witness :
    CardPaymentDebit.create "csob" "2023" "ACCT" "ACF" 0
      ["Transakce platební kartou 01.02.2023", "nákup", "-1 234,56", "",
       "123456789", "558", "20231563", "VENDOR A ", "d.tran. 31.01.2023",
       " PRAHA"] = .ok (some
      { kind := .cardPaymentDebit
        statement_account := "ACCT"
        year := some "2023"
        account_from := some "ACF"
        amount := -123456 / 100
        date_booked := some "01.02.2023"
        payment_date := some "31.01.2023"
        variable_symbol := some 123456789
        constant_symbol := some 558
        specific_symbol := some 20231563
        card_identifier := some "1563"
        vendor_text := some "VENDOR APRAHA"
        card_owner := some "Ondra, ČSOB, MC" }) :=
  (C2_csob_card_payment_offsets "2023" "ACCT" "ACF" 0
    ["Transakce platební kartou 01.02.2023", "nákup", "-1 234,56", "",
     "123456789", "558", "20231563", "VENDOR A ", "d.tran. 31.01.2023",
     " PRAHA"]
    "01.02.2023" "-1 234,56" "123456789" "558" "20231563" "VENDOR A "
    "d.tran. 31.01.2023" " PRAHA" 2 (-123456 / 100) 123456789 558 20231563
    (by decide) (by decide) (by decide) (by decide) (by decide) (by decide)
    (by decide) (by decide) (by decide) (by decide) (by decide)
    (by decide)).trans (by decide)

/-- C1: the marker dispatch of `get_transactions_pdf` tests the kinds in
exactly the order CardPaymentIncoming, IncomingPayment, OutgoingPayment,
CardPaymentDebit, CardAtmCashOut, BankPayedService,
OutgoingPaymentPeriodic, InterestPositive, TaxInterest,
ElectronicBankingTransfer, DirectDebit, CardAtmDeposit — the selected kind
is the first of that list whose marker occurs in the line — and when that
kind's extraction rule (invoked with the current line index and the full
page line list) produces a transaction, the step appends it (with the next
registry id and the parent statement path) to both the global registry and
the statement's list and leaves the engine Accumulating, anchored to it. -/
theorem C1_marker_dispatch_order_and_append (bank year acct fp : String)
    (page : List String) (i : ℕ) (st : EngineState) (k : TxKind)
    (tx : Transaction)
    (hbank : bank = "cs" ∨ bank = "csob")
    (hsel : selectKind bank (page.getD i "") = some k)
    (hcreate : invokeCreate k bank year acct i page = .ok (some tx)) :
    selectKind bank (page.getD i "") =
      ([TxKind.cardPaymentIncoming,
       .incomingPayment,
       .outgoingPayment,
       .cardPaymentDebit,
       .cardAtmCashOut,
       .bankPayedService,
       .outgoingPaymentPeriodic,
       .interestPositive,
       .taxInterest,
       .electronicBankingTransfer,
       .directDebit,
       .cardAtmDeposit].find? (kindMatches bank (page.getD i ""))) ∧
    stepLine bank year acct fp page i st = .ok
      { registry := { nextId := st.registry.nextId + 1,
                      txs := st.registry.txs ++
                        [{ tx with transaction_id := st.registry.nextId,
                                   parent_statement := some fp }] }
        stTxs := st.stTxs ++
          [{ tx with transaction_id := st.registry.nextId,
                     parent_statement := some fp }]
        active := true } ∧
    (stepLine bank year acct fp page i st).toOption.map EngineState.active =
      some true := by
  refine ⟨?_, ?_, ?_⟩
  · clear hsel hcreate
    unfold selectKind
    cases h1 : kindMatches bank (page.getD i "") .cardPaymentIncoming <;>
      simp only [h1, List.find?_cons, if_true, if_false, Bool.false_eq_true]
    cases h2 : kindMatches bank (page.getD i "") .incomingPayment <;>
      simp only [h2, List.find?_cons, if_true, if_false, Bool.false_eq_true]
    cases h3 : kindMatches bank (page.getD i "") .outgoingPayment <;>
      simp only [h3, List.find?_cons, if_true, if_false, Bool.false_eq_true]
    cases h4 : kindMatches bank (page.getD i "") .cardPaymentDebit <;>
      simp only [h4, List.find?_cons, if_true, if_false, Bool.false_eq_true]
    cases h5 : kindMatches bank (page.getD i "") .cardAtmCashOut <;>
      simp only [h5, List.find?_cons, if_true, if_false, Bool.false_eq_true]
    cases h6 : kindMatches bank (page.getD i "") .bankPayedService <;>
      simp only [h6, List.find?_cons, if_true, if_false, Bool.false_eq_true]
    cases h7 : kindMatches bank (page.getD i "") .outgoingPaymentPeriodic <;>
      simp only [h7, List.find?_cons, if_true, if_false, Bool.false_eq_true]
    cases h8 : kindMatches bank (page.getD i "") .interestPositive <;>
      simp only [h8, List.find?_cons, if_true, if_false, Bool.false_eq_true]
    cases h9 : kindMatches bank (page.getD i "") .taxInterest <;>
      simp only [h9, List.find?_cons, if_true, if_false, Bool.false_eq_true]
    cases h10 : kindMatches bank (page.getD i "") .electronicBankingTransfer <;>
      simp only [h10, List.find?_cons, if_true, if_false, Bool.false_eq_true]
    cases h11 : kindMatches bank (page.getD i "") .directDebit <;>
      simp only [h11, List.find?_cons, if_true, if_false, Bool.false_eq_true]
    cases h12 : kindMatches bank (page.getD i "") .cardAtmDeposit <;>
      simp only [h12, List.find?_cons, if_true, if_false, Bool.false_eq_true]
    simp [List.find?_nil]
  · rcases hbank with rfl | rfl <;>
      simp only [stepLine, hsel, hcreate, registerTx, ne_eq, not_true_eq_false,
        false_and, and_false, if_false]
  · rcases hbank with rfl | rfl <;>
      simp only [stepLine, hsel, hcreate, registerTx, ne_eq, not_true_eq_false,
        false_and, and_false, if_false] <;> rfl

/-- C1 witness: one concrete CS page line carrying the `IncomingPayment`
marker; the step appends the created transaction (id 1, parent set) to
both registries and is left Accumulating. -/
theorem C1_marker_dispatch_order_and_append_witness :
    ("cs" = "cs" ∨ "cs" = "csob") ∧
    selectKind "cs"
      ((["Příchozí úhrada 02.01.2023", "123456/0800", "+1 000,00"] :
        List String).getD 0 "") = some .incomingPayment ∧
    invokeCreate .incomingPayment "cs" "2023" "AC" 0
      ["Příchozí úhrada 02.01.2023", "123456/0800", "+1 000,00"] = .ok (some
      { kind := .incomingPayment
        statement_account := "AC"
        year := some "2023"
        account_from := some "123456/0800"
        amount := 1000
        date_booked := some "02.01.2023"
        account_to := some "AC" }) ∧
    (selectKind "cs"
        ((["Příchozí úhrada 02.01.2023", "123456/0800", "+1 000,00"] :
          List String).getD 0 "") =
      ([TxKind.cardPaymentIncoming, .incomingPayment, .outgoingPayment,
        .cardPaymentDebit, .cardAtmCashOut, .bankPayedService,
        .outgoingPaymentPeriodic, .interestPositive, .taxInterest,
        .electronicBankingTransfer, .directDebit, .cardAtmDeposit].find?
        (kindMatches "cs"
          ((["Příchozí úhrada 02.01.2023", "123456/0800", "+1 000,00"] :
            List String).getD 0 ""))) ∧
     stepLine "cs" "2023" "AC" "f.pdf"
        ["Příchozí úhrada 02.01.2023", "123456/0800", "+1 000,00"] 0 {} = .ok
        { registry := { nextId := ({} : EngineState).registry.nextId + 1,
                        txs := ({} : EngineState).registry.txs ++
                          [{ ({ kind := .incomingPayment
                                statement_account := "AC"
                                year := some "2023"
                                account_from := some "123456/0800"
                                amount := 1000
                                date_booked := some "02.01.2023"
                                account_to := some "AC" } : Transaction) with
                              transaction_id := ({} : EngineState).registry.nextId,
                              parent_statement := some "f.pdf" }] }
          stTxs := ({} : EngineState).stTxs ++
            [{ ({ kind := .incomingPayment
                  statement_account := "AC"
                  year := some "2023"
                  account_from := some "123456/0800"
                  amount := 1000
                  date_booked := some "02.01.2023"
                  account_to := some "AC" } : Transaction) with
                transaction_id := ({} : EngineState).registry.nextId,
                parent_statement := some "f.pdf" }]
          active := true } ∧
     (stepLine "cs" "2023" "AC" "f.pdf"
        ["Příchozí úhrada 02.01.2023", "123456/0800", "+1 000,00"] 0
        {}).toOption.map EngineState.active = some true) :=
  ⟨Or.inl rfl, by decide, by decide,
   C1_marker_dispatch_order_and_append "cs" "2023" "AC" "f.pdf"
     ["Příchozí úhrada 02.01.2023", "123456/0800", "+1 000,00"] 0 {}
     .incomingPayment
     { kind := .incomingPayment
       statement_account := "AC"
       year := some "2023"
       account_from := some "123456/0800"
       amount := 1000
       date_booked := some "02.01.2023"
       account_to := some "AC" }
     (Or.inl rfl) (by decide) (by decide)⟩

theorem pyIdx_out {α : Type} (l : List α) (i : ℕ) (h : l.length ≤ i) :
    pyIdx l (i : Int) = .error .indexError := by
  unfold pyIdx
  rw [if_pos (by exact_mod_cast Int.ofNat_nonneg i)]
  rw [Int.toNat_natCast, List.get?_eq_none.mpr h]

theorem dateOfMarker_out (bank year : String) (i : ℕ) (page : List String)
    (h : page.length ≤ i) : dateOfMarker bank year i page = .error .indexError := by
  unfold dateOfMarker
  rw [pyIdx_out page i h]
  rfl

theorem foldlM_isOkB_false {σ α : Type} (f : σ → α → Except PyErr σ) (x : α)
    (hx : ∀ s, (f s x).isOkB = false) :
    ∀ (xs : List α), x ∈ xs → ∀ s0, (xs.foldlM f s0).isOkB = false := by
  intro xs
  induction xs with
  | nil => intro hmem; cases hmem
  | cons a l ih =>
    intro hmem s0
    rw [List.foldlM_cons]
    rcases List.mem_cons.mp hmem with rfl | hmem'
    · cases hfa : f s0 x with
      | error e => simp [hfa, exBind_err, Except.isOkB]
      | ok s1 =>
        have hc := hx s0
        rw [hfa] at hc
        simp [Except.isOkB] at hc
    · cases hfa : f s0 a with
      | error e => simp [hfa, exBind_err, Except.isOkB]
      | ok s1 =>
        simp only [hfa, exBind_ok]
        exact ih hmem' s1

theorem exBind_isOkB_false {α β : Type} (x : Except PyErr α)
    (f : α → Except PyErr β) (hf : ∀ a, (f a).isOkB = false) :
    (x >>= f).isOkB = false := by
  cases x with
  | error e => rfl
  | ok a => exact hf a

/-- C3: a fixed positional offset that refers past the end of the page's
line list makes the extraction rule raise (no transaction with wrong or
default fields is produced), and that error makes the page extraction of
the engine fail.  Concretely: (1) every live (bank, kind) rule (all
those whose markers are not the `"PLACEHOLDER"` stub) fails when the
marker index itself is out of range; (2) each rule with fixed interior
offsets fails whenever its deepest unconditionally reached offset is out
of range (which subsumes every shorter truncation): `IncomingPayment` CS
`+1`, `OutgoingPayment` CS `+1`, `CardPaymentDebit` CS `+6` and CSOB
`+9`, `CardPaymentIncoming` CS `+7` and CSOB `+9`, `CardAtmCashOut` CS
`+6+offset` for either ATM offset, `CardAtmDeposit` CS `+3`,
`BankPayedService` CS `+1` always and `+2` when the line after the
marker selects the ATM-fee service subtype, `InterestPositive` CSOB
`+2`; (3) a page whose first matching marker dispatches to the CSOB card
rule with the `+9` offset out of range makes `processPage` fail,
aborting the file's extraction. -/
theorem C3_offset_out_of_range_aborts (bank year acct af fp : String)
    (k : TxKind) (i i2 i3 iA iB iC iD iE iF iG iH iK j : ℕ)
    (page page2 page3 pageA pageB pageC pageD pageE pageF pageG pageH
      pageK pageJ : List String)
    (lH : String) (st : EngineState)
    (hbank : bank = "cs" ∨ bank = "csob")
    (hlive : text_identifiers k bank ≠ ["PLACEHOLDER"])
    (hi : page.length ≤ i)
    (hi2 : page2.length ≤ i2 + 6)
    (hi3 : page3.length ≤ i3 + 9)
    (hA : pageA.length ≤ iA + 1)
    (hB : pageB.length ≤ iB + 1)
    (hC : pageC.length ≤ iC + 7)
    (hD : pageD.length ≤ iD + 9)
    (hE : pageE.length ≤ iE + 6)
    (hF : pageF.length ≤ iF + 3)
    (hG : pageG.length ≤ iG + 1)
    (hHi : pyIdx pageH ((iH : Int) + 1) = .ok lH)
    (hHc : strContains lH "Cena za výběr hotovosti z bankomatu" = true)
    (hHl : pageH.length ≤ iH + 2)
    (hK : pageK.length ≤ iK + 2)
    (hj : j < pageJ.length)
    (hselJ : selectKind "csob" (pageJ.getD j "") = some .cardPaymentDebit)
    (hj9 : pageJ.length ≤ j + 9) :
    (invokeCreate k bank year acct i page).isOkB = false ∧
    (IncomingPayment.create "cs" year acct af iA pageA).isOkB = false ∧
    (OutgoingPayment.create "cs" year acct af iB pageB).isOkB = false ∧
    (CardPaymentDebit.create "cs" year acct af i2 page2).isOkB = false ∧
    (CardPaymentDebit.create "csob" year acct af i3 page3).isOkB = false ∧
    (CardPaymentIncoming.create "cs" year acct af iC pageC).isOkB = false ∧
    (CardPaymentIncoming.create "csob" year acct af iD pageD).isOkB = false ∧
    (CardAtmCashOut.create "cs" year acct af iE pageE).isOkB = false ∧
    (CardAtmDeposit.create "cs" year acct af iF pageF).isOkB = false ∧
    (BankPayedService.create "cs" year acct af iG pageG).isOkB = false ∧
    (BankPayedService.create "cs" year acct af iH pageH).isOkB = false ∧
    (InterestPositive.create "csob" year acct af iK pageK).isOkB = false ∧
    (processPage "csob" year acct fp st pageJ).isOkB = false := by
  have hcsobCPD : ∀ (i' : ℕ) (page' : List String) (af' : String),
      page'.length ≤ i' + 9 →
      (CardPaymentDebit.create "csob" year acct af' i' page').isOkB = false := by
    intro i3 page3 af3 hi3
    have h9err : pyIdx page3 ((i3 : Int) + 9) = .error .indexError := by
      have he : ((i3 : Int) + 9) = ((i3 + 9 : ℕ) : Int) := by push_cast; ring
      rw [he]
      exact pyIdx_out page3 (i3 + 9) (by omega)
    unfold CardPaymentDebit.create
    rw [if_neg (by decide), if_pos rfl]
    cases hdq : dateOfMarker "csob" year i3 page3 <;>
      simp only [hdq, exBind_ok, exBind_err, Except.isOkB]
    rename_i dq
    cases hamq : amountFromSearch page3 i3 <;>
      simp only [hamq, exBind_ok, exBind_err, Except.isOkB]
    rename_i amq
    cases hb4 : pyIdx page3 ((i3 : Int) + 4) <;>
      simp only [hb4, exBind_ok, exBind_err, Except.isOkB]
    rename_i m4
    cases hw4 : pyInt (pyStrip m4) <;>
      simp only [hw4, exBind_ok, exBind_err, Except.isOkB]
    rename_i w4
    cases hb5 : pyIdx page3 ((i3 : Int) + 5) <;>
      simp only [hb5, exBind_ok, exBind_err, Except.isOkB]
    rename_i m5
    cases hw5 : pyInt (pyStrip m5) <;>
      simp only [hw5, exBind_ok, exBind_err, Except.isOkB]
    rename_i w5
    cases hb6 : pyIdx page3 ((i3 : Int) + 6) <;>
      simp only [hb6, exBind_ok, exBind_err, Except.isOkB]
    rename_i m6
    cases hw6 : pyInt (pyStrip m6) <;>
      simp only [hw6, exBind_ok, exBind_err, Except.isOkB]
    rename_i w6
    cases hb8 : pyIdx page3 ((i3 : Int) + 8) <;>
      simp only [hb8, exBind_ok, exBind_err, Except.isOkB]
    rename_i m8
    cases hb7 : pyIdx page3 ((i3 : Int) + 7) <;>
      simp only [hb7, exBind_ok, exBind_err, Except.isOkB]
    rename_i m7
    simp only [h9err, exBind_err, Except.isOkB]
  refine ⟨?_, ?_, ?_, ?_, ?_, ?_, ?_, ?_, ?_, ?_, ?_, ?_, ?_⟩
  · rcases hbank with rfl | rfl <;> cases k <;>
      first
        | exact absurd (by decide) hlive
        | simp +decide only [invokeCreate, IncomingPayment.create, OutgoingPayment.create,
          OutgoingPaymentPeriodic.create, CardPaymentDebit.create,
          CardPaymentIncoming.create, CardAtmCashOut.create,
          CardAtmDeposit.create, BankPayedService.create,
          InterestPositive.create, TaxInterest.create,
          ElectronicBankingTransfer.create, DirectDebit.create,
            dateOfMarker_out _ _ _ _ hi, exBind_err, Except.isOkB]
  · have herrA : pyIdx pageA ((iA : Int) + 1) = .error .indexError := by
      have he : ((iA : Int) + 1) = ((iA + 1 : ℕ) : Int) := by push_cast; ring
      rw [he]
      exact pyIdx_out pageA (iA + 1) hA
    unfold IncomingPayment.create
    rw [if_pos rfl]
    refine exBind_isOkB_false _ _ fun x1 => ?_
    simp only [herrA, exBind_err, Except.isOkB]
  · have herrB : pyIdx pageB ((iB : Int) + 1) = .error .indexError := by
      have he : ((iB : Int) + 1) = ((iB + 1 : ℕ) : Int) := by push_cast; ring
      rw [he]
      exact pyIdx_out pageB (iB + 1) hB
    unfold OutgoingPayment.create
    rw [if_pos rfl]
    refine exBind_isOkB_false _ _ fun x1 => ?_
    simp only [herrB, exBind_err, Except.isOkB]
  · have h6err : pyIdx page2 ((i2 : Int) + 6) = .error .indexError := by
      have he : ((i2 : Int) + 6) = ((i2 + 6 : ℕ) : Int) := by push_cast; ring
      rw [he]
      exact pyIdx_out page2 (i2 + 6) (by omega)
    unfold CardPaymentDebit.create
    rw [if_pos rfl]
    cases hd : dateOfMarker "cs" year i2 page2 <;>
      simp only [hd, exBind_ok, exBind_err, Except.isOkB]
    rename_i d
    cases ha1 : pyIdx page2 ((i2 : Int) + 1) <;>
      simp only [ha1, exBind_ok, exBind_err, Except.isOkB]
    rename_i l1
    cases hv1 : pyInt (pyStrip l1) <;>
      simp only [hv1, exBind_ok, exBind_err, Except.isOkB]
    rename_i v1
    cases ham : amountFromSearch page2 i2 <;>
      simp only [ham, exBind_ok, exBind_err, Except.isOkB]
    rename_i am
    cases ha3 : pyIdx page2 ((i2 : Int) + 3) <;>
      simp only [ha3, exBind_ok, exBind_err, Except.isOkB]
    rename_i l3
    cases hv3 : pyInt (pyStrip l3) <;>
      simp only [hv3, exBind_ok, exBind_err, Except.isOkB]
    rename_i v3
    cases ha4 : pyIdx page2 ((i2 : Int) + 4) <;>
      simp only [ha4, exBind_ok, exBind_err, Except.isOkB]
    rename_i l4
    cases hv4 : pyInt (pyStrip l4) <;>
      simp only [hv4, exBind_ok, exBind_err, Except.isOkB]
    rename_i v4
    cases ha5 : pyIdx page2 ((i2 : Int) + 5) <;>
      simp only [ha5, exBind_ok, exBind_err, Except.isOkB]
    rename_i l5
    simp only [h6err, exBind_err, Except.isOkB]
  · exact hcsobCPD i3 page3 af hi3
  · have herrC : pyIdx pageC ((iC : Int) + 7) = .error .indexError := by
      have he : ((iC : Int) + 7) = ((iC + 7 : ℕ) : Int) := by push_cast; ring
      rw [he]
      exact pyIdx_out pageC (iC + 7) hC
    unfold CardPaymentIncoming.create
    rw [if_pos rfl]
    refine exBind_isOkB_false _ _ fun x1 => ?_
    refine exBind_isOkB_false _ _ fun x2 => ?_
    refine exBind_isOkB_false _ _ fun x3 => ?_
    refine exBind_isOkB_false _ _ fun x4 => ?_
    refine exBind_isOkB_false _ _ fun x5 => ?_
    refine exBind_isOkB_false _ _ fun x6 => ?_
    refine exBind_isOkB_false _ _ fun x7 => ?_
    refine exBind_isOkB_false _ _ fun x8 => ?_
    refine exBind_isOkB_false _ _ fun x9 => ?_
    simp only [herrC, exBind_err, Except.isOkB]
  · have herrD : pyIdx pageD ((iD : Int) + 9) = .error .indexError := by
      have he : ((iD : Int) + 9) = ((iD + 9 : ℕ) : Int) := by push_cast; ring
      rw [he]
      exact pyIdx_out pageD (iD + 9) hD
    unfold CardPaymentIncoming.create
    rw [if_neg (by decide), if_pos rfl]
    refine exBind_isOkB_false _ _ fun x1 => ?_
    refine exBind_isOkB_false _ _ fun x2 => ?_
    refine exBind_isOkB_false _ _ fun x3 => ?_
    refine exBind_isOkB_false _ _ fun x4 => ?_
    refine exBind_isOkB_false _ _ fun x5 => ?_
    refine exBind_isOkB_false _ _ fun x6 => ?_
    refine exBind_isOkB_false _ _ fun x7 => ?_
    refine exBind_isOkB_false _ _ fun x8 => ?_
    refine exBind_isOkB_false _ _ fun x9 => ?_
    refine exBind_isOkB_false _ _ fun x10 => ?_
    refine exBind_isOkB_false _ _ fun x11 => ?_
    simp only [herrD, exBind_err, Except.isOkB]
  · have herrE : ∀ b : Bool,
        pyIdx pageE ((iE : Int) + 6 + (if b = true then (0 : ℕ) else 1)) =
          .error .indexError := by
      intro b
      have he : ((iE : Int) + 6 + (if b = true then (0 : ℕ) else 1)) =
          ((iE + 6 + (if b = true then 0 else 1) : ℕ) : Int) := by
        push_cast; ring
      rw [he]
      exact pyIdx_out pageE _ (le_trans hE (Nat.le_add_right _ _))
    unfold CardAtmCashOut.create
    rw [if_pos rfl]
    refine exBind_isOkB_false _ _ fun x1 => ?_
    refine exBind_isOkB_false _ _ fun x2 => ?_
    refine exBind_isOkB_false _ _ fun x3 => ?_
    refine exBind_isOkB_false _ _ fun x4 => ?_
    refine exBind_isOkB_false _ _ fun x5 => ?_
    refine exBind_isOkB_false _ _ fun x6 => ?_
    refine exBind_isOkB_false _ _ fun x7 => ?_
    refine exBind_isOkB_false _ _ fun x8 => ?_
    refine exBind_isOkB_false _ _ fun x9 => ?_
    refine exBind_isOkB_false _ _ fun x10 => ?_
    simp only [herrE x2, exBind_err, Except.isOkB]
  · have herrF : pyIdx pageF ((iF : Int) + 3) = .error .indexError := by
      have he : ((iF : Int) + 3) = ((iF + 3 : ℕ) : Int) := by push_cast; ring
      rw [he]
      exact pyIdx_out pageF (iF + 3) hF
    unfold CardAtmDeposit.create
    rw [if_pos rfl]
    refine exBind_isOkB_false _ _ fun x1 => ?_
    refine exBind_isOkB_false _ _ fun x2 => ?_
    refine exBind_isOkB_false _ _ fun x3 => ?_
    refine exBind_isOkB_false _ _ fun x4 => ?_
    simp only [herrF, exBind_err, Except.isOkB]
  · have herrG : get_cs_bank_service_type iG pageG = .error .indexError := by
      have h1err : pyIdx pageG ((iG : Int) + 1) = .error .indexError := by
        have he : ((iG : Int) + 1) = ((iG + 1 : ℕ) : Int) := by push_cast; ring
        rw [he]
        exact pyIdx_out pageG (iG + 1) hG
      unfold get_cs_bank_service_type
      rw [h1err]
      rfl
    unfold BankPayedService.create
    rw [if_pos rfl]
    refine exBind_isOkB_false _ _ fun x1 => ?_
    refine exBind_isOkB_false _ _ fun x2 => ?_
    simp only [herrG, exBind_err, Except.isOkB]
  · have herrH : get_cs_bank_service_type iH pageH = .error .indexError := by
      have h2err : pyIdx pageH ((iH : Int) + 2) = .error .indexError := by
        have he : ((iH : Int) + 2) = ((iH + 2 : ℕ) : Int) := by push_cast; ring
        rw [he]
        exact pyIdx_out pageH (iH + 2) hHl
      unfold get_cs_bank_service_type
      rw [hHi]
      simp only [exBind_ok]
      rw [if_pos hHc, h2err]
      rfl
    unfold BankPayedService.create
    rw [if_pos rfl]
    refine exBind_isOkB_false _ _ fun x1 => ?_
    refine exBind_isOkB_false _ _ fun x2 => ?_
    simp only [herrH, exBind_err, Except.isOkB]
  · have herrK : pyIdx pageK ((iK : Int) + 2) = .error .indexError := by
      have he : ((iK : Int) + 2) = ((iK + 2 : ℕ) : Int) := by push_cast; ring
      rw [he]
      exact pyIdx_out pageK (iK + 2) hK
    unfold InterestPositive.create
    rw [if_neg (by decide), if_pos rfl]
    refine exBind_isOkB_false _ _ fun x1 => ?_
    simp only [herrK, exBind_err, Except.isOkB]
  · unfold processPage
    refine foldlM_isOkB_false _ j ?_ _ (List.mem_range.mpr hj) st
    intro s
    unfold stepLine
    rw [if_neg (by decide)]
    simp only [hselJ]
    cases hc : CardPaymentDebit.create "csob" year acct acct j pageJ with
    | error e => simp only [invokeCreate, hc, Except.isOkB]
    | ok v =>
      have hcontra := hcsobCPD j pageJ acct (by omega)
      rw [hc] at hcontra
      simp [Except.isOkB] at hcontra

/-- C3 witness: concrete truncated pages.  A marker index past the end, a
one-line page for every rule with fixed interior offsets (plus a two-line
page hitting the conditional `+2` service-subtype offset), and a page
whose only marker dispatches to the CSOB card rule: every rule invocation
errors and the page extraction fails. -/
theorem C3_offset_out_of_range_aborts_witness :
    (("cs" : String) = "cs" ∨ ("cs" : String) = "csob") ∧
    text_identifiers .incomingPayment "cs" ≠ ["PLACEHOLDER"] ∧
    (["x"] : List String).length ≤ 5 ∧
    (["Platba kartou", "1"] : List String).length ≤ 0 + 6 ∧
    (["Transakce platební kartou", "x"] : List String).length ≤ 0 + 9 ∧
    (["a"] : List String).length ≤ 0 + 1 ∧
    (["b"] : List String).length ≤ 0 + 1 ∧
    (["c"] : List String).length ≤ 0 + 7 ∧
    (["d"] : List String).length ≤ 0 + 9 ∧
    (["e"] : List String).length ≤ 0 + 6 ∧
    (["f"] : List String).length ≤ 0 + 3 ∧
    (["g"] : List String).length ≤ 0 + 1 ∧
    pyIdx (["g", "Cena za výběr hotovosti z bankomatu"] : List String)
      (((0 : ℕ) : Int) + 1) = .ok "Cena za výběr hotovosti z bankomatu" ∧
    strContains "Cena za výběr hotovosti z bankomatu"
      "Cena za výběr hotovosti z bankomatu" = true ∧
    (["g", "Cena za výběr hotovosti z bankomatu"] : List String).length ≤
      0 + 2 ∧
    (["k"] : List String).length ≤ 0 + 2 ∧
    0 < (["Transakce platební kartou", "x"] : List String).length ∧
    selectKind "csob" ((["Transakce platební kartou", "x"] :
      List String).getD 0 "") = some .cardPaymentDebit ∧
    (["Transakce platební kartou", "x"] : List String).length ≤ 0 + 9 ∧
    ((invokeCreate .incomingPayment "cs" "2023" "AC" 5 ["x"]).isOkB = false ∧
     (IncomingPayment.create "cs" "2023" "AC" "AF" 0 ["a"]).isOkB = false ∧
     (OutgoingPayment.create "cs" "2023" "AC" "AF" 0 ["b"]).isOkB = false ∧
     (CardPaymentDebit.create "cs" "2023" "AC" "AF" 0
        ["Platba kartou", "1"]).isOkB = false ∧
     (CardPaymentDebit.create "csob" "2023" "AC" "AF" 0
        ["Transakce platební kartou", "x"]).isOkB = false ∧
     (CardPaymentIncoming.create "cs" "2023" "AC" "AF" 0 ["c"]).isOkB = false ∧
     (CardPaymentIncoming.create "csob" "2023" "AC" "AF" 0
        ["d"]).isOkB = false ∧
     (CardAtmCashOut.create "cs" "2023" "AC" "AF" 0 ["e"]).isOkB = false ∧
     (CardAtmDeposit.create "cs" "2023" "AC" "AF" 0 ["f"]).isOkB = false ∧
     (BankPayedService.create "cs" "2023" "AC" "AF" 0 ["g"]).isOkB = false ∧
     (BankPayedService.create "cs" "2023" "AC" "AF" 0
        ["g", "Cena za výběr hotovosti z bankomatu"]).isOkB = false ∧
     (InterestPositive.create "csob" "2023" "AC" "AF" 0 ["k"]).isOkB = false ∧
     (processPage "csob" "2023" "AC" "f.pdf" {}
        ["Transakce platební kartou", "x"]).isOkB = false) :=
  ⟨Or.inl rfl, by decide, by decide, by simp, by decide, Nat.le_refl _,
   Nat.le_refl _, by decide, by simp, by decide, by simp, Nat.le_refl _,
   rfl, rfl, Nat.le_refl _, by decide, by decide, by decide, by simp,
   C3_offset_out_of_range_aborts "cs" "2023" "AC" "AF" "f.pdf"
     .incomingPayment 5 0 0 0 0 0 0 0 0 0 0 0 0 ["x"] ["Platba kartou", "1"]
     ["Transakce platební kartou", "x"] ["a"] ["b"] ["c"] ["d"] ["e"] ["f"]
     ["g"] ["g", "Cena za výběr hotovosti z bankomatu"] ["k"]
     ["Transakce platební kartou", "x"]
     "Cena za výběr hotovosti z bankomatu" {}
     (Or.inl rfl) (by decide) (by decide) (by simp) (by decide)
     (Nat.le_refl _) (Nat.le_refl _) (by decide) (by simp) (by decide)
     (by simp) (Nat.le_refl _) rfl rfl (Nat.le_refl _) (by decide)
     (by decide) (by decide) (by simp)⟩

theorem renumberFrom_map_id (n : ℕ) (l : List Transaction) :
    (renumberFrom n l).map Transaction.transaction_id = List.range' n l.length := by
  induction l generalizing n with
  | nil => rfl
  | cons a l ih =>
    simp only [renumberFrom, List.map_cons, List.length_cons, List.range'_succ, ih]

theorem keyLE_trans (a b c : Transaction) (hab : keyLE a b = true)
    (hbc : keyLE b c = true) : keyLE a c = true := by
  simp only [keyLE, dateLT, decide_eq_true_eq, Prod.ext_iff] at hab hbc ⊢
  omega

theorem keyLE_total (a b : Transaction) : (keyLE a b || keyLE b a) = true := by
  simp only [keyLE, dateLT, Bool.or_eq_true, decide_eq_true_eq, Prod.ext_iff]
  omega

/-- C5: with parseable booking dates and distinct creation ids,
`sort_transactions` succeeds and yields a permutation of the registry
ordered strictly by booking date ascending with same-day ties broken by
the original (creation) transaction id; the renumbering loop then assigns
exactly the ids 1..N in sorted order. -/
theorem C5_sort_then_renumber (txs : List Transaction)
    (hne : txs ≠ [])
    (hdates : ∀ tx ∈ txs, (dateKey tx).isSome = true)
    (hnodup : (txs.map Transaction.transaction_id).Nodup) :
    sort_transactions txs = .ok (txs.mergeSort keyLE) ∧
    (txs.mergeSort keyLE).Perm txs ∧
    (txs.mergeSort keyLE).Pairwise (fun a b =>
      dateLT ((dateKey a).getD (0, 0, 0)) ((dateKey b).getD (0, 0, 0)) = true ∨
      ((dateKey a).getD (0, 0, 0) = (dateKey b).getD (0, 0, 0) ∧
       a.transaction_id < b.transaction_id)) ∧
    (renumberTransactions (txs.mergeSort keyLE)).map Transaction.transaction_id =
      List.range' 1 txs.length := by
  have hperm : (txs.mergeSort keyLE).Perm txs := List.mergeSort_perm txs keyLE
  refine ⟨?_, hperm, ?_, ?_⟩
  · unfold sort_transactions
    rw [if_pos (List.all_eq_true.mpr hdates)]
  · have hpw : (txs.mergeSort keyLE).Pairwise (fun a b => keyLE a b = true) :=
      List.sorted_mergeSort keyLE_trans keyLE_total txs
    have hnd : ((txs.mergeSort keyLE).map Transaction.transaction_id).Nodup :=
      (hperm.symm.map Transaction.transaction_id).nodup hnodup
    have hpne : (txs.mergeSort keyLE).Pairwise
        (fun a b => a.transaction_id ≠ b.transaction_id) :=
      List.pairwise_map.mp hnd
    refine (hpw.and hpne).imp ?_
    intro a b ⟨hk, hneq⟩
    simp only [keyLE, dateLT, decide_eq_true_eq, Prod.ext_iff] at hk ⊢
    omega
  · rw [renumberTransactions, renumberFrom_map_id, hperm.length_eq]

/-- C5 witness: a registry of two transactions with creation ids 1 and 2
whose dates are out of order; the hypotheses hold and the sorted,
renumbered conclusion follows. -/
theorem C5_sort_then_renumber_witness :
    (([{ kind := .incomingPayment, statement_account := "A", transaction_id := 1, date_booked := some "05.03.2023" }, { kind := .outgoingPayment, statement_account := "A", transaction_id := 2, date_booked := some "01.01.2023" }] : List Transaction) ≠ []) ∧
    (∀ tx ∈ ([{ kind := .incomingPayment, statement_account := "A", transaction_id := 1, date_booked := some "05.03.2023" }, { kind := .outgoingPayment, statement_account := "A", transaction_id := 2, date_booked := some "01.01.2023" }] : List Transaction), (dateKey tx).isSome = true) ∧
    (([{ kind := .incomingPayment, statement_account := "A", transaction_id := 1, date_booked := some "05.03.2023" }, { kind := .outgoingPayment, statement_account := "A", transaction_id := 2, date_booked := some "01.01.2023" }] : List Transaction).map Transaction.transaction_id).Nodup ∧
    (sort_transactions ([{ kind := .incomingPayment, statement_account := "A", transaction_id := 1, date_booked := some "05.03.2023" }, { kind := .outgoingPayment, statement_account := "A", transaction_id := 2, date_booked := some "01.01.2023" }] : List Transaction) = .ok (([{ kind := .incomingPayment, statement_account := "A", transaction_id := 1, date_booked := some "05.03.2023" }, { kind := .outgoingPayment, statement_account := "A", transaction_id := 2, date_booked := some "01.01.2023" }] : List Transaction).mergeSort keyLE) ∧
     (renumberTransactions (([{ kind := .incomingPayment, statement_account := "A", transaction_id := 1, date_booked := some "05.03.2023" }, { kind := .outgoingPayment, statement_account := "A", transaction_id := 2, date_booked := some "01.01.2023" }] : List Transaction).mergeSort keyLE)).map Transaction.transaction_id =
       List.range' 1 2) := by
  have h := C5_sort_then_renumber ([{ kind := .incomingPayment, statement_account := "A", transaction_id := 1, date_booked := some "05.03.2023" }, { kind := .outgoingPayment, statement_account := "A", transaction_id := 2, date_booked := some "01.01.2023" }] : List Transaction) (by decide) (by decide) (by decide)
  exact ⟨by decide, by decide, by decide, h.1, h.2.2.2⟩

theorem digit_ne (c d : Char) (h : c.isDigit = true) (hd : d.isDigit = false) :
    c ≠ d := by
  intro he
  rw [he, hd] at h
  cases h

theorem digit_not_ws (c : Char) (h : c.isDigit = true) :
    isPyWhitespace c = false := by
  have h1 := digit_ne c ' ' h (by decide)
  have h2 := digit_ne c '\t' h (by decide)
  have h3 := digit_ne c '\r' h (by decide)
  have h4 := digit_ne c '\n' h (by decide)
  have h5 := digit_ne c nbspChar h (by decide)
  have h6 := digit_ne c (Char.ofNat 11) h (by decide)
  have h7 := digit_ne c (Char.ofNat 12) h (by decide)
  simp [isPyWhitespace, Char.isWhitespace, h1, h2, h3, h4, h5, h6, h7]

theorem clean_digits (l : List Char) (h : ∀ c ∈ l, c.isDigit = true) :
    ((l.filter (fun c => ¬(c = ' ' ∨ c = nbspChar))).map
      (fun c => if c = ',' then '.' else c)) = l := by
  induction l with
  | nil => rfl
  | cons c l ih =>
    have hc := h c (List.mem_cons_self c l)
    have h1 := digit_ne c ' ' hc (by decide)
    have h2 := digit_ne c nbspChar hc (by decide)
    have h3 := digit_ne c ',' hc (by decide)
    have hkeep : (decide ¬(c = ' ' ∨ c = nbspChar)) = true := by simp [h1, h2]
    simp only [List.filter_cons, hkeep, if_true, List.map_cons, if_neg h3]
    rw [ih (fun x hx => h x (List.mem_cons_of_mem c hx))]

theorem clean_groups (gs : List (Char × List Char))
    (hd : ∀ p ∈ gs, ∀ c ∈ p.2, c.isDigit = true)
    (hs : ∀ p ∈ gs, p.1 = ' ' ∨ p.1 = nbspChar) :
    (((gs.foldr (fun p acc => p.1 :: (p.2 ++ acc)) []).filter
        (fun c => ¬(c = ' ' ∨ c = nbspChar))).map
      (fun c => if c = ',' then '.' else c)) =
      gs.foldr (fun p acc => p.2 ++ acc) [] := by
  induction gs with
  | nil => rfl
  | cons p gs ih =>
    have hsep := hs p (List.mem_cons_self p gs)
    have hdrop : (decide ¬(p.1 = ' ' ∨ p.1 = nbspChar)) = false := by
      rcases hsep with h | h <;> simp [h]
    simp only [List.foldr_cons, List.filter_cons, hdrop, List.filter_append,
      List.map_append, Bool.false_eq_true, if_false]
    have hg : ((p.2.filter (fun c => ¬(c = ' ' ∨ c = nbspChar))).map
        (fun c => if c = ',' then '.' else c)) = p.2 :=
      clean_digits p.2 (hd p (List.mem_cons_self p gs))
    rw [← List.map_append, ← List.filter_append] at *
    rw [List.filter_append, List.map_append, hg,
      ih (fun q hq => hd q (List.mem_cons_of_mem p hq))
         (fun q hq => hs q (List.mem_cons_of_mem p hq))]

theorem dropWhile_all_false {α : Type} (p : α → Bool) (cs : List α)
    (h : ∀ c ∈ cs, p c = false) : cs.dropWhile p = cs := by
  cases cs with
  | nil => rfl
  | cons c l => rw [List.dropWhile_cons, h c (List.mem_cons_self c l)]; simp

theorem pyStripL_id (cs : List Char)
    (h : ∀ c ∈ cs, isPyWhitespace c = false) : pyStripL cs = cs := by
  unfold pyStripL
  rw [dropWhile_all_false _ cs h,
    dropWhile_all_false _ cs.reverse (fun c hc => h c (List.mem_reverse.mp hc)),
    List.reverse_reverse]

theorem span_at_dot {p : Char → Bool} (xs ys : List Char) (y : Char)
    (hxs : ∀ x ∈ xs, p x = true) (hy : p y = false) :
    (xs ++ y :: ys).takeWhile p = xs ∧ (xs ++ y :: ys).dropWhile p = y :: ys := by
  induction xs with
  | nil => simp [List.takeWhile_cons, List.dropWhile_cons, hy]
  | cons x xs ih =>
    have hx := hxs x (List.mem_cons_self x xs)
    have ih' := ih (fun z hz => hxs z (List.mem_cons_of_mem x hz))
    simp only [List.cons_append, List.takeWhile_cons, List.dropWhile_cons, hx,
      if_true, ih'.1, ih'.2, and_self]

theorem span_no_dot {p : Char → Bool} (xs : List Char)
    (hxs : ∀ x ∈ xs, p x = true) :
    xs.takeWhile p = xs ∧ xs.dropWhile p = [] := by
  induction xs with
  | nil => simp
  | cons x xs ih =>
    have hx := hxs x (List.mem_cons_self x xs)
    have ih' := ih (fun z hz => hxs z (List.mem_cons_of_mem x hz))
    simp only [List.takeWhile_cons, List.dropWhile_cons, hx, if_true, ih'.1,
      ih'.2, and_self]

theorem round2_hundredths (z : ℤ) : round2 ((z : ℚ) / 100) = (z : ℚ) / 100 := by
  have hx : ((z : ℚ) / 100) * 100 = (z : ℚ) := by field_simp
  have hfl : floorQ ((z : ℚ)) = z := by
    simp [floorQ, Rat.num_intCast, Rat.den_intCast]
  simp only [round2]
  rw [hx, hfl]
  norm_num

theorem pyFloatQ_render_nodec (sign : Option Bool) (ds : List Char)
    (hds : ds ≠ []) (hdig : ∀ c ∈ ds, c.isDigit = true) :
    pyFloatQ ⟨signChars sign ++ ds ++ []⟩ =
    some ((if sign = some true then -1 else 1) * ((digitsVal ds : ℚ) + 0)) := by
  obtain ⟨c0, ds', rfl⟩ : ∃ c0 ds', ds = c0 :: ds' := by
    cases ds with
    | nil => exact absurd rfl hds
    | cons c0 ds' => exact ⟨c0, ds', rfl⟩
  have hc0 : c0.isDigit = true := hdig c0 (List.mem_cons_self c0 ds')
  have hnws : ∀ c ∈ signChars sign ++ (c0 :: ds') ++ ([] : List Char),
      isPyWhitespace c = false := by
    intro c hmem
    rw [List.append_nil] at hmem
    rcases List.mem_append.mp hmem with hsgn | hdsm
    · cases sign with
      | none => cases hsgn
      | some b =>
        cases b <;> simp only [signChars] at hsgn <;>
          rcases List.mem_singleton.mp hsgn with rfl <;> decide
    · exact digit_not_ws c (hdig c hdsm)
  show pyFloatQ ⟨signChars sign ++ (c0 :: ds') ++ []⟩ = _
  unfold pyFloatQ
  rw [show (⟨signChars sign ++ (c0 :: ds') ++ []⟩ : String).data =
    signChars sign ++ (c0 :: ds') ++ [] from rfl]
  rw [pyStripL_id _ hnws, List.append_nil]
  cases sign with
  | none =>
    have hm : c0 ≠ '-' := digit_ne c0 '-' hc0 (by decide)
    have hp : c0 ≠ '+' := digit_ne c0 '+' hc0 (by decide)
    simp only [signChars, List.nil_append, List.cons_append, List.headD_cons]
    rw [if_neg hm, if_neg (by rintro (h | h); exacts [hm h, hp h])]
    have hsp := span_no_dot (p := fun c => decide (c ≠ '.')) (c0 :: ds')
      (fun x hx => by simp [digit_ne x '.' (hdig x hx) (by decide)])
    simp only [hsp.1, hsp.2]
    rw [if_pos ⟨by simp, List.all_eq_true.mpr hdig⟩]
    norm_num
    all_goals simp
  | some b =>
    cases b with
    | false =>
      simp only [signChars, List.cons_append, List.singleton_append,
        List.nil_append, List.headD_cons]
      simp +decide only [if_true, if_false, List.tail_cons]
      have hsp := span_no_dot (p := fun c => decide (c ≠ '.')) (c0 :: ds')
        (fun x hx => by simp [digit_ne x '.' (hdig x hx) (by decide)])
      simp only [hsp.1, hsp.2]
      rw [if_pos ⟨by simp, List.all_eq_true.mpr hdig⟩]
      norm_num
    | true =>
      simp only [signChars, List.cons_append, List.singleton_append,
        List.nil_append, List.headD_cons]
      simp +decide only [if_true, if_false, List.tail_cons]
      have hsp := span_no_dot (p := fun c => decide (c ≠ '.')) (c0 :: ds')
        (fun x hx => by simp [digit_ne x '.' (hdig x hx) (by decide)])
      simp only [hsp.1, hsp.2]
      rw [if_pos ⟨by simp, List.all_eq_true.mpr hdig⟩]
      norm_num

theorem pyFloatQ_render_dec (sign : Option Bool) (ds : List Char) (d1 d2 : Char)
    (hds : ds ≠ []) (hdig : ∀ c ∈ ds, c.isDigit = true)
    (hd1 : d1.isDigit = true) (hd2 : d2.isDigit = true) :
    pyFloatQ ⟨signChars sign ++ ds ++ ['.', d1, d2]⟩ =
    some ((if sign = some true then -1 else 1) *
      ((digitsVal ds : ℚ) + (digitsVal [d1, d2] : ℚ) / 100)) := by
  obtain ⟨c0, ds', rfl⟩ : ∃ c0 ds', ds = c0 :: ds' := by
    cases ds with
    | nil => exact absurd rfl hds
    | cons c0 ds' => exact ⟨c0, ds', rfl⟩
  have hc0 : c0.isDigit = true := hdig c0 (List.mem_cons_self c0 ds')
  have hnws : ∀ c ∈ signChars sign ++ (c0 :: ds') ++ ['.', d1, d2],
      isPyWhitespace c = false := by
    intro c hmem
    rcases List.mem_append.mp hmem with hmem' | hdecm
    · rcases List.mem_append.mp hmem' with hsgn | hdsm
      · cases sign with
        | none => cases hsgn
        | some b =>
          cases b <;> simp only [signChars] at hsgn <;>
            rcases List.mem_singleton.mp hsgn with rfl <;> decide
      · exact digit_not_ws c (hdig c hdsm)
    · rcases List.mem_cons.mp hdecm with rfl | hdecm2
      · decide
      · rcases List.mem_cons.mp hdecm2 with rfl | hdecm3
        · exact digit_not_ws _ hd1
        · rcases List.mem_cons.mp hdecm3 with rfl | hdecm4
          · exact digit_not_ws _ hd2
          · cases hdecm4
  show pyFloatQ ⟨signChars sign ++ (c0 :: ds') ++ ['.', d1, d2]⟩ = _
  unfold pyFloatQ
  rw [show (⟨signChars sign ++ (c0 :: ds') ++ ['.', d1, d2]⟩ : String).data =
    signChars sign ++ (c0 :: ds') ++ ['.', d1, d2] from rfl]
  rw [pyStripL_id _ hnws]
  cases sign with
  | none =>
    have hm : c0 ≠ '-' := digit_ne c0 '-' hc0 (by decide)
    have hp : c0 ≠ '+' := digit_ne c0 '+' hc0 (by decide)
    simp only [signChars, List.nil_append, List.cons_append, List.headD_cons]
    rw [if_neg hm, if_neg (by rintro (h | h); exacts [hm h, hp h])]
    rw [← List.cons_append]
    have hsp := span_at_dot (p := fun c => decide (c ≠ '.')) (c0 :: ds') [d1, d2] '.'
      (fun x hx => by simp [digit_ne x '.' (hdig x hx) (by decide)]) (by decide)
    simp only [hsp.1, hsp.2]
    rw [if_pos ⟨Or.inl (by simp), List.all_eq_true.mpr hdig, by simp [hd1, hd2]⟩]
    norm_num
    all_goals simp
  | some b =>
    cases b with
    | false =>
      simp only [signChars, List.cons_append, List.singleton_append,
        List.nil_append, List.headD_cons]
      simp +decide only [if_true, if_false, List.tail_cons]
      rw [← List.cons_append]
      have hsp := span_at_dot (p := fun c => decide (c ≠ '.')) (c0 :: ds') [d1, d2] '.'
        (fun x hx => by simp [digit_ne x '.' (hdig x hx) (by decide)]) (by decide)
      simp only [hsp.1, hsp.2]
      rw [if_pos ⟨Or.inl (by simp), List.all_eq_true.mpr hdig, by simp [hd1, hd2]⟩]
      norm_num
    | true =>
      simp only [signChars, List.cons_append, List.singleton_append,
        List.nil_append, List.headD_cons]
      simp +decide only [if_true, if_false, List.tail_cons]
      rw [← List.cons_append]
      have hsp := span_at_dot (p := fun c => decide (c ≠ '.')) (c0 :: ds') [d1, d2] '.'
        (fun x hx => by simp [digit_ne x '.' (hdig x hx) (by decide)]) (by decide)
      simp only [hsp.1, hsp.2]
      rw [if_pos ⟨Or.inl (by simp), List.all_eq_true.mpr hdig, by simp [hd1, hd2]⟩]
      norm_num

theorem mem_groups (gs : List (Char × List Char)) (p : Char × List Char)
    (hp : p ∈ gs) (c : Char) (hc : c ∈ p.2) :
    c ∈ gs.foldr (fun q acc => q.2 ++ acc) [] := by
  induction gs with
  | nil => cases hp
  | cons q gs ih =>
    rcases List.mem_cons.mp hp with rfl | hp'
    · exact List.mem_append_left _ hc
    · exact List.mem_append_right _ (ih hp')

theorem clean_sign (sg : Option Bool) :
    (((signChars sg).filter (fun c => ¬(c = ' ' ∨ c = nbspChar))).map
      (fun c => if c = ',' then '.' else c)) = signChars sg := by
  cases sg with
  | none => rfl
  | some b => cases b <;> decide

/-- C4: for every well-formed amount string (optional sign, digit groups
separated by spaces or non-breaking spaces, optional comma or dot decimal
separator with two decimal digits), `pdf_amount_to_float` strips the
thousand separators, converts the comma to a dot, and returns exactly the
denoted signed value — already expressed in hundredths, so the final
2-decimal rounding is the identity. -/
theorem C4_parse_amount (a : AmountShape)
    (hfg : a.firstGroup ≠ [])
    (hdig : ∀ c ∈ intDigits a, c.isDigit = true)
    (hsep : ∀ p ∈ a.restGroups, p.1 = ' ' ∨ p.1 = nbspChar)
    (hdec : ∀ s d1 d2, a.dec = some (s, d1, d2) →
      (s = ',' ∨ s = '.') ∧ d1.isDigit = true ∧ d2.isDigit = true) :
    pdf_amount_to_float (renderAmount a) = .ok (denoteAmount a) ∧
    (denoteAmount a * 100).den = 1 := by
  obtain ⟨sg, fg, gs, dec⟩ := a
  simp only [intDigits] at hdig
  have hne : fg ++ gs.foldr (fun q acc => q.2 ++ acc) [] ≠ [] :=
    fun h => hfg (List.append_eq_nil.mp h).1
  have hcleanInt :
      (((fg ++ gs.foldr (fun p acc => p.1 :: (p.2 ++ acc)) []).filter
          (fun c => ¬(c = ' ' ∨ c = nbspChar))).map
        (fun c => if c = ',' then '.' else c)) =
      fg ++ gs.foldr (fun q acc => q.2 ++ acc) [] := by
    rw [List.filter_append, List.map_append,
      clean_digits fg (fun c hc => hdig c (List.mem_append_left _ hc)),
      clean_groups gs
        (fun p hp c hc => hdig c (List.mem_append_right _ (mem_groups gs p hp c hc)))
        hsep]
  cases dec with
  | none =>
    have hclean :
        (((renderAmount ⟨sg, fg, gs, none⟩).data.filter
            (fun c => ¬(c = ' ' ∨ c = nbspChar))).map
          (fun c => if c = ',' then '.' else c)) =
        signChars sg ++ (fg ++ gs.foldr (fun q acc => q.2 ++ acc) []) ++ [] := by
      show ((((signChars sg ++ intChars ⟨sg, fg, gs, none⟩ ++ [])).filter
          (fun c => ¬(c = ' ' ∨ c = nbspChar))).map
        (fun c => if c = ',' then '.' else c)) = _
      rw [List.filter_append, List.filter_append, List.map_append,
        List.map_append, clean_sign sg]
      show signChars sg ++ _ ++ [] = _
      rw [show intChars ⟨sg, fg, gs, none⟩ =
        fg ++ gs.foldr (fun p acc => p.1 :: (p.2 ++ acc)) [] from rfl, hcleanInt]
    have hfl := pyFloatQ_render_nodec sg
      (fg ++ gs.foldr (fun q acc => q.2 ++ acc) []) hne hdig
    have hq : ((if sg = some true then (-1 : ℚ) else 1) *
        ((digitsVal (fg ++ gs.foldr (fun q acc => q.2 ++ acc) []) : ℚ) + 0)) =
        (((if sg = some true then (-1 : ℤ) else 1) *
          (100 * (digitsVal (fg ++ gs.foldr (fun q acc => q.2 ++ acc) []) : ℤ)) :
          ℤ) : ℚ) / 100 := by
      by_cases hsg : sg = some true <;> simp [hsg] <;> push_cast <;> ring
    constructor
    · simp only [pdf_amount_to_float]
      rw [hclean, hfl]
      show Except.ok (round2 _) = _
      rw [hq, round2_hundredths, ← hq]
      rfl
    · show (((if sg = some true then (-1 : ℚ) else 1) *
        ((digitsVal (fg ++ gs.foldr (fun q acc => q.2 ++ acc) []) : ℚ) + 0)) *
        100).den = 1
      rw [hq, div_mul_cancel₀ _ (by norm_num : (100 : ℚ) ≠ 0), Rat.den_intCast]
  | some t =>
    obtain ⟨s, d1, d2⟩ := t
    obtain ⟨hs, hd1, hd2⟩ := hdec s d1 d2 rfl
    have hcleanDec :
        ((([s, d1, d2].filter (fun c => ¬(c = ' ' ∨ c = nbspChar))).map
          (fun c => if c = ',' then '.' else c)) = ['.', d1, d2]) := by
      have k1 := digit_ne d1 ' ' hd1 (by decide)
      have k2 := digit_ne d1 nbspChar hd1 (by decide)
      have k3 := digit_ne d1 ',' hd1 (by decide)
      have k4 := digit_ne d2 ' ' hd2 (by decide)
      have k5 := digit_ne d2 nbspChar hd2 (by decide)
      have k6 := digit_ne d2 ',' hd2 (by decide)
      rcases hs with rfl | rfl <;>
        simp +decide [List.filter_cons, List.map_cons, k1, k2, k3, k4, k5, k6]
    have hclean :
        (((renderAmount ⟨sg, fg, gs, some (s, d1, d2)⟩).data.filter
            (fun c => ¬(c = ' ' ∨ c = nbspChar))).map
          (fun c => if c = ',' then '.' else c)) =
        signChars sg ++ (fg ++ gs.foldr (fun q acc => q.2 ++ acc) []) ++
          ['.', d1, d2] := by
      show ((((signChars sg ++ intChars ⟨sg, fg, gs, some (s, d1, d2)⟩ ++
          [s, d1, d2])).filter (fun c => ¬(c = ' ' ∨ c = nbspChar))).map
        (fun c => if c = ',' then '.' else c)) = _
      rw [List.filter_append, List.filter_append, List.map_append,
        List.map_append, clean_sign sg, hcleanDec]
      show signChars sg ++ _ ++ ['.', d1, d2] = _
      rw [show intChars ⟨sg, fg, gs, some (s, d1, d2)⟩ =
        fg ++ gs.foldr (fun p acc => p.1 :: (p.2 ++ acc)) [] from rfl, hcleanInt]
    have hfl := pyFloatQ_render_dec sg
      (fg ++ gs.foldr (fun q acc => q.2 ++ acc) []) d1 d2 hne hdig hd1 hd2
    have hq : ((if sg = some true then (-1 : ℚ) else 1) *
        ((digitsVal (fg ++ gs.foldr (fun q acc => q.2 ++ acc) []) : ℚ) +
          (digitsVal [d1, d2] : ℚ) / 100)) =
        (((if sg = some true then (-1 : ℤ) else 1) *
          (100 * (digitsVal (fg ++ gs.foldr (fun q acc => q.2 ++ acc) []) : ℤ) +
            (digitsVal [d1, d2] : ℤ)) : ℤ) : ℚ) / 100 := by
      by_cases hsg : sg = some true <;> simp [hsg] <;> push_cast <;> ring
    constructor
    · simp only [pdf_amount_to_float]
      rw [hclean, hfl]
      show Except.ok (round2 _) = _
      rw [hq, round2_hundredths, ← hq]
      rfl
    · show (((if sg = some true then (-1 : ℚ) else 1) *
        ((digitsVal (fg ++ gs.foldr (fun q acc => q.2 ++ acc) []) : ℚ) +
          (digitsVal [d1, d2] : ℚ) / 100)) * 100).den = 1
      rw [hq, div_mul_cancel₀ _ (by norm_num : (100 : ℚ) ≠ 0), Rat.den_intCast]

/-- C4 witness: the spec's example — the shape printing as
`"-1 234,56"` satisfies the format hypotheses and parses to −1234.56. -/
theorem C4_parse_amount_witness :
    pdf_amount_to_float "-1 234,56" = .ok (-123456 / 100) ∧
    renderAmount ⟨some true, ['1'], [(' ', ['2', '3', '4'])],
      some (',', '5', '6')⟩ = "-1 234,56" ∧
    denoteAmount ⟨some true, ['1'], [(' ', ['2', '3', '4'])],
      some (',', '5', '6')⟩ = -123456 / 100 ∧
    (intDigits ⟨some true, ['1'], [(' ', ['2', '3', '4'])],
      some (',', '5', '6')⟩).all Char.isDigit = true := by
  have h := C4_parse_amount
    ⟨some true, ['1'], [(' ', ['2', '3', '4'])], some (',', '5', '6')⟩
    (by decide) (by decide) (by decide)
    (fun s d1 d2 hsd => by
      obtain ⟨rfl, rfl, rfl⟩ : ',' = s ∧ '5' = d1 ∧ '6' = d2 := by
        have hp := Option.some.inj hsd
        exact ⟨congrArg Prod.fst hp, congrArg (fun p => p.2.1) hp,
          congrArg (fun p => p.2.2) hp⟩
      exact ⟨Or.inl rfl, rfl, rfl⟩)
  refine ⟨?_, by decide, by decide, by decide⟩
  have hrender : renderAmount ⟨some true, ['1'], [(' ', ['2', '3', '4'])],
      some (',', '5', '6')⟩ = "-1 234,56" := by decide
  rw [← hrender, h.1]
  decide
